import Mathlib

/-!
Verification development for the Model Release Orchestrator (MRO) canary-release
engine, a React single-page application (src/App.tsx, src/constants.ts, plus the
shared type declarations).  The core engine state lives in React `useState`
hooks inside the `App` component; the metric sampler and the decision-timeout
logic live in two `useEffect` hooks with dependency arrays, and the operator
actions are plain handler functions.

The shallow embedding below models that core faithfully:

* Every `useState` hook that participates in the release workflow becomes a
  field of `State` (phase, metrics, messages, logs, activeModel,
  shadowTestStatus, networkEnabled, canaryPercent, rolloutDuration, tickIndex,
  showRollbackModal, recommendationTimeout, agentConfidence, plus the
  `simulationInterval` ref modeled as the Boolean `simRunning`).
  Pure view state (active tab, guided tour, chat input, the Overview dashboard
  simulation, modal for release notes, localStorage persistence) takes no part
  in any claim and is omitted.
* `Math.random()` is modeled as an oracle `rand : Nat -> Rat` consumed at an
  advancing index `randCtr`; `Date.now()` is modeled as a strictly monotone
  clock: each read returns `now` and advances it by one, and each 1000 ms
  interval tick advances it by `TICK_INTERVAL_MS`.  The id strings produced by
  `Math.random().toString(36)` are modeled by the draw index.
* A `setTimeout` whose callback posts agent messages is modeled by appending
  the scheduled message (with its delay) to `pendingMessages`; the shadow-test
  completion timer and the 60 s decision timeout are modeled by `shadowPending`
  and `decisionTimer`, fired by explicit events.
* React re-runs an effect after a render in which one of its dependencies
  changed.  `runEffectsOnce` models one render pass (metric-generation effect,
  then the timeout-warning effect, with the bookkeeping fields
  `lastMetricDeps` / `lastTimeoutPhase` recording the dependencies at the last
  run); `stabilize` iterates it to the fixpoint, which is reached after two
  passes because the metric effect can change its own dependencies at most once
  (the MONITORING -> ANOMALY_DETECTED transition).
* Each operator action / timer event is an `Event`; `applyEvent` runs the
  handler and then stabilizes the effects, exactly as a React commit does.
-/

namespace MRO

set_option maxRecDepth 8000
set_option maxHeartbeats 1000000

/-- Release phases (the `AppPhase` enum of the shared type declarations). -/
inductive AppPhase
  | IDLE
  | SHADOW_TEST
  | CANARY_SETUP
  | MONITORING
  | ANOMALY_DETECTED
  | ROLLBACK_CONFIRM
  | ROLLED_BACK
deriving DecidableEq, Repr

/-- Status of the shadow test (the `shadowTestStatus` state hook). -/
inductive ShadowStatus
  | idle
  | running
  | complete
deriving DecidableEq, Repr

/-- Severity of a log entry (the `type` field of `LogEntry`). -/
inductive LogType
  | info
  | warning
  | error
  | success
deriving DecidableEq, Repr

/-- Kind of an agent message (the `type` field of `AgentMessage`). -/
inductive MsgType
  | normal
  | alert
  | recommendation
  | success
deriving DecidableEq, Repr

/-- Risk level carried in recommendation metadata. -/
inductive Risk
  | Low
  | Medium
  | High
deriving DecidableEq, Repr

/-- Sender of an agent message. -/
inductive Sender
  | Terra
  | System
  | User
deriving DecidableEq, Repr

/-- Optional metadata of an `AgentMessage`. -/
structure MsgMeta where
  confidence : Option Nat
  risk : Option Risk
  primaryDrift : Option String
deriving DecidableEq, Repr

/-- `ModelData` of the shared type declarations. -/
structure ModelData where
  version : String
  accuracy : Rat
  «recall» : Rat
  latency_ms : Rat
  fairness : Rat
deriving DecidableEq, Repr

/-- A metric sample (`MetricPoint`).  The source also carries a `timeLabel`
display string derived from the clock; it is presentation-only and omitted. -/
structure MetricPoint where
  timestamp : Int
  latency : Rat
  error_rate : Rat
  drift_user_region : Rat
deriving DecidableEq, Repr

/-- An audit-log entry (`LogEntry`).  The random id string is modeled by the
index of the `Math.random()` draw that produced it; the ISO timestamp string
by the clock value. -/
structure LogEntry where
  id : Nat
  timestamp : Int
  event : String
  details : String
  type : LogType
deriving DecidableEq, Repr

/-- An agent chat message (`AgentMessage`), ids and timestamps modeled as for
`LogEntry`. -/
structure AgentMessage where
  id : Nat
  text : String
  timestamp : Int
  sender : Sender
  type : MsgType
  metadata : Option MsgMeta
deriving DecidableEq, Repr

/-- An agent message scheduled through `setTimeout(addAgentMessage ..., delay)`
but not yet delivered. -/
structure PendingMsg where
  delayMs : Nat
  text : String
  type : MsgType
  metadata : Option MsgMeta
deriving DecidableEq, Repr

/-- `BASELINE_MODEL` of src/constants.ts. -/
def BASELINE_MODEL : ModelData :=
  { version := "v2.1", accuracy := 842/1000, «recall» := 72/100
  , latency_ms := 210, fairness := 91/100 }

/-- `CANDIDATE_MODEL` of src/constants.ts. -/
def CANDIDATE_MODEL : ModelData :=
  { version := "v3.0", accuracy := 895/1000, «recall» := 79/100
  , latency_ms := 232, fairness := 898/1000 }

/-- `INITIAL_METRICS_STATE.error_rate` of src/constants.ts. -/
def INITIAL_error_rate : Rat := 8/1000

/-- `INITIAL_METRICS_STATE.drifts.user_region` of src/constants.ts. -/
def INITIAL_drift_user_region : Rat := 2/100

/-- `ANOMALY_TICK_INDEX` of src/constants.ts. -/
def ANOMALY_TICK_INDEX : Nat := 3

/-- `TICK_INTERVAL_MS` of src/constants.ts. -/
def TICK_INTERVAL_MS : Int := 1000

/-- `ANOMALY_VALUES.latency = Math.round(BASELINE_MODEL.latency_ms * 1.22)`,
with JavaScript rounding `Math.round x = floor (x + 1/2)`. -/
def ANOMALY_latency : Rat :=
  ((Rat.floor (BASELINE_MODEL.latency_ms * (122/100) + 1/2) : Int) : Rat)

/-- `ANOMALY_VALUES.error_rate` of src/constants.ts. -/
def ANOMALY_error_rate : Rat := 19/1000

/-- `ANOMALY_VALUES.drift_user_region` of src/constants.ts. -/
def ANOMALY_drift_user_region : Rat := 18/100

/-- The dependency triple of the metric-generation effect:
`[tickIndex, phase, networkEnabled]` (the two callback dependencies are
`useCallback` values with empty dependency lists, hence stable). -/
abbrev MetricDeps := Nat × AppPhase × Bool

/-- The complete engine state: one field per participating `useState` hook,
the `simulationInterval` ref (`simRunning`), the pending timers, the
`Math.random()` / `Date.now()` oracles, and the effect bookkeeping. -/
structure State where
  phase : AppPhase
  metrics : List MetricPoint
  messages : List AgentMessage
  logs : List LogEntry
  activeModel : String
  shadowTestStatus : ShadowStatus
  /-- the 2 s shadow-test completion timer scheduled by `handleStartGuided` -/
  shadowPending : Bool
  networkEnabled : Bool
  canaryPercent : Nat
  rolloutDuration : Int
  tickIndex : Nat
  showRollbackModal : Bool
  recommendationTimeout : Bool
  agentConfidence : Nat
  /-- whether `simulationInterval.current` holds a live interval -/
  simRunning : Bool
  /-- messages scheduled by `setTimeout` and not yet delivered -/
  pendingMessages : List PendingMsg
  /-- the 60 s decision timeout: `some delay` while armed -/
  decisionTimer : Option Nat
  /-- oracle for `Math.random()` draws -/
  rand : Nat → Rat
  /-- index of the next `Math.random()` draw -/
  randCtr : Nat
  /-- monotone `Date.now()` clock; each read returns it and advances it -/
  now : Int
  /-- metric-effect dependencies at its last run -/
  lastMetricDeps : MetricDeps
  /-- timeout-effect dependency (`[phase]`) at its last run -/
  lastTimeoutPhase : AppPhase

/-- `addLog` of src/App.tsx: prepends a fresh entry (newest first). -/
def addLog (s : State) (event details : String) (ty : LogType) : State :=
  { s with
    logs := { id := s.randCtr, timestamp := s.now
            , event := event, details := details, type := ty } :: s.logs
  , randCtr := s.randCtr + 1
  , now := s.now + 1 }

/-- `addAgentMessage` of src/App.tsx: appends a fresh Terra message. -/
def addAgentMessage (s : State) (text : String) (ty : MsgType)
    (md : Option MsgMeta) : State :=
  { s with
    messages := s.messages ++
      [{ id := s.randCtr, text := text, timestamp := s.now
       , sender := .Terra, type := ty, metadata := md }]
  , randCtr := s.randCtr + 1
  , now := s.now + 1 }

/-- One synthetic warm-up sample of `startSimulation`:
`timestamp = Date.now() - (10 - i) * 1000`, baseline-shaped values, where the
i-th element consumes the i-th clock read and random draws `3*i .. 3*i+2`. -/
def warmupPoint (rand : Nat → Rat) (c0 : Nat) (n0 : Int) (i : Nat) : MetricPoint :=
  { timestamp := (n0 + i) - (10 - (i : Int)) * 1000
  , latency := BASELINE_MODEL.latency_ms + (rand (c0 + 3 * i) * 10 - 5)
  , error_rate := INITIAL_error_rate + (rand (c0 + 3 * i + 1) * (2/1000) - 1/1000)
  , drift_user_region := INITIAL_drift_user_region + rand (c0 + 3 * i + 2) * (5/1000) }

/-- The 10-sample warm-up history seeded by `startSimulation`. -/
def warmupPoints (rand : Nat → Rat) (c0 : Nat) (n0 : Int) : List MetricPoint :=
  (List.range 10).map (warmupPoint rand c0 n0)

/-- `startSimulation` of src/App.tsx: clears any previous interval, seeds the
10-sample warm-up history, resets `tickIndex` to 0 and starts the 1 s interval.
The ten map iterations consume ten clock reads and thirty random draws. -/
def startSimulation (s : State) : State :=
  { s with
    simRunning := true
  , metrics := warmupPoints s.rand s.randCtr s.now
  , randCtr := s.randCtr + 30
  , now := s.now + 10
  , tickIndex := 0 }

/-- `setMetrics` update of the metric-generation effect: append, then evict the
oldest sample (`Array.shift`) whenever the length exceeds 30. -/
def pushMetric (prev : List MetricPoint) (p : MetricPoint) : List MetricPoint :=
  let next := prev ++ [p]
  if next.length > 30 then next.tail else next

/-- Current value of the metric-generation effect's dependency array. -/
def metricDeps (s : State) : MetricDeps := (s.tickIndex, s.phase, s.networkEnabled)

/-- First scheduled advisory message of the anomaly branch (0.5 s). -/
def anomalyMsg1 : PendingMsg :=
  { delayMs := 500
  , text := "⚠️ Early anomaly detected during canary rollout."
  , type := .alert, metadata := none }

/-- Second scheduled advisory message of the anomaly branch (1.5 s). -/
def anomalyMsg2 : PendingMsg :=
  { delayMs := 1500
  , text := "Latency rose 22% (210ms → 256ms). Feature user_region drift 18% vs baseline 2%. Error rate increased to 1.9%."
  , type := .alert, metadata := none }

/-- Third scheduled advisory message of the anomaly branch (3 s): the
recommendation with confidence 83 and risk High. -/
def anomalyMsg3 : PendingMsg :=
  { delayMs := 3000
  , text := "Recommendation: Rollback to v2.1. Confidence: 83%. Options: [Continue Rollout] [Rollback to v2.1]. I will not act without your confirmation."
  , type := .recommendation
  , metadata := some { confidence := some 83, risk := some .High
                     , primaryDrift := some "user_region" } }

/-- The `newPoint` of the metric-generation effect: anomaly-shaped iff
`tickIndex >= ANOMALY_TICK_INDEX`, one `Math.random()` draw per field in
declaration order. -/
def samplePoint (s : State) : MetricPoint :=
  { timestamp := s.now
  , latency :=
      if ANOMALY_TICK_INDEX ≤ s.tickIndex then
        ANOMALY_latency + s.rand s.randCtr * 10
      else
        BASELINE_MODEL.latency_ms + (s.rand s.randCtr * 10 - 5)
  , error_rate :=
      if ANOMALY_TICK_INDEX ≤ s.tickIndex then
        ANOMALY_error_rate + s.rand (s.randCtr + 1) * (5/1000)
      else
        INITIAL_error_rate + (s.rand (s.randCtr + 1) * (2/1000) - 1/1000)
  , drift_user_region :=
      if ANOMALY_TICK_INDEX ≤ s.tickIndex then
        ANOMALY_drift_user_region + s.rand (s.randCtr + 2) * (2/100)
      else
        INITIAL_drift_user_region + s.rand (s.randCtr + 2) * (5/1000) }

/-- The `setMetrics` step of the effect body: append the fresh sample (with
FIFO eviction), consuming three random draws and one clock read. -/
def appendSample (s : State) : State :=
  { s with metrics := pushMetric s.metrics (samplePoint s)
         , randCtr := s.randCtr + 3, now := s.now + 1 }

/-- The anomaly branch of the effect body: enter ANOMALY_DETECTED, reset the
agent confidence to 83, schedule the three advisory messages and log
"Anomaly Detected". -/
def fireAnomaly (s1 : State) : State :=
  addLog
    { s1 with
      phase := .ANOMALY_DETECTED
    , agentConfidence := 83
    , pendingMessages := s1.pendingMessages ++ [anomalyMsg1, anomalyMsg2, anomalyMsg3] }
    "Anomaly Detected" "Latency > threshold (+22%), Drift > threshold (0.18)." .warning

/-- Body of the metric-generation effect (src/App.tsx lines 217-270).
Early-returns unless phase is MONITORING or ANOMALY_DETECTED and the network
is enabled; otherwise appends one sample and, exactly when
`tickIndex == ANOMALY_TICK_INDEX && phase == MONITORING`, runs the anomaly
branch on the result. -/
def metricEffectBody (s : State) : State :=
  if (s.phase ≠ .MONITORING ∧ s.phase ≠ .ANOMALY_DETECTED) ∨ s.networkEnabled = false then
    s
  else if s.tickIndex = ANOMALY_TICK_INDEX ∧ s.phase = .MONITORING then
    fireAnomaly (appendSample s)
  else
    appendSample s

/-- Body of the timeout-warning effect (src/App.tsx lines 273-283), together
with its cleanup: on a phase change the previous 60 s timer is cleared; in
ANOMALY_DETECTED a fresh 60 s timer is armed, otherwise `recommendationTimeout`
is reset. -/
def timeoutEffectBody (s : State) : State :=
  if s.phase = .ANOMALY_DETECTED then
    { s with decisionTimer := some 60000 }
  else
    { s with recommendationTimeout := false, decisionTimer := none }

/-- The metric-generation effect of one render pass: run the body iff the
dependency array changed since the last run, recording the new value. -/
def metricCheck (s : State) : State :=
  if metricDeps s ≠ s.lastMetricDeps then
    metricEffectBody { s with lastMetricDeps := metricDeps s }
  else
    s

/-- The timeout-warning effect of one render pass: run the body (after its
cleanup) iff `phase` changed since the last run. -/
def timeoutCheck (s : State) : State :=
  if s.phase ≠ s.lastTimeoutPhase then
    timeoutEffectBody { s with lastTimeoutPhase := s.phase }
  else
    s

/-- One render pass: both effects in declaration order, each run iff its
dependencies changed since its last run. -/
def runEffectsOnce (s : State) : State :=
  timeoutCheck (metricCheck s)

/-- Iterate the render/effect loop to its fixpoint.  Two passes always
suffice: the metric effect can change its own dependencies at most once
(firing the anomaly changes phase MONITORING -> ANOMALY_DETECTED, and its body
never changes phase again from ANOMALY_DETECTED). -/
def stabilize (s : State) : State := runEffectsOnce (runEffectsOnce s)

/-- `handleStartGuided`: enter SHADOW_TEST, log, greet, schedule the 2 s
shadow-test completion. -/
def handleStartGuided (s : State) : State :=
  let s1 := { s with phase := .SHADOW_TEST, shadowTestStatus := .running
                   , shadowPending := true }
  let s2 := addLog s1 "Shadow Test Initiated"
    "Checking candidate model stability against baseline." .info
  addAgentMessage s2
    "Hi — I’m Terra. I recommend a 5% canary for 20 minutes. I’ll monitor latency, error rate, and feature drift. I will not act without your confirmation."
    .normal none

/-- Firing of the shadow-test completion timer scheduled by
`handleStartGuided`. -/
def fireShadowComplete (s : State) : State :=
  if s.shadowPending then
    let s1 := { s with shadowTestStatus := .complete, shadowPending := false }
    let s2 := addLog s1 "Shadow Test Completed"
      "Result: Stable. No anomalies detected." .success
    addAgentMessage s2 "Shadow test stable. No anomalies detected." .success none
  else
    s

/-- `handleContinueToSetup`: set phase to CANARY_SETUP (no guard, no other
effect). -/
def handleContinueToSetup (s : State) : State :=
  { s with phase := .CANARY_SETUP }

/-- `handleStartCanary`: enter MONITORING, set the active model banner, log the
rollout start and start the simulation (no validation of `canaryPercent` or
`rolloutDuration`).  The `setActiveTab` call is pure view state. -/
def handleStartCanary (s : State) : State :=
  let bv := BASELINE_MODEL.version
  let cv := CANDIDATE_MODEL.version
  let s1 := { s with phase := .MONITORING
                   , activeModel := s!"{bv} (95%) / {cv} (5%)" }
  let s2 := addLog s1 "Canary Rollout Started"
    "Traffic split: 95/5. Monitoring started." .info
  startSimulation s2

/-- `handleRollbackClick`: only opens the confirmation modal; the phase is
unchanged. -/
def handleRollbackClick (s : State) : State :=
  { s with showRollbackModal := true }

/-- `handleContinueRollout`: clear the timeout flag, log with the
operator-adjusted confidence, post the continuation message.  The phase is
unchanged and the pending 60 s timer is not cleared. -/
def handleContinueRollout (s : State) : State :=
  let s1 := { s with recommendationTimeout := false }
  let conf := s.agentConfidence
  let s2 := addLog s1 "Rollout Continued"
    s!"User overrode rollback recommendation. Adjusted Confidence: {conf}%." .warning
  addAgentMessage s2
    "Continuing rollout. Monitoring extended to next 15 minutes. I will notify you immediately if degradation accelerates."
    .normal none

/-- `confirmRollback`: cancel the interval, enter ROLLED_BACK, close the modal,
restore the baseline banner, clear the timeout flag, log "Rollback Executed"
with the operator-adjusted confidence and post the success message. -/
def confirmRollback (s : State) : State :=
  let s1 := { s with simRunning := false, phase := .ROLLED_BACK
                   , showRollbackModal := false
                   , activeModel := BASELINE_MODEL.version
                   , recommendationTimeout := false }
  let conf := s.agentConfidence
  let s2 := addLog s1 "Rollback Executed"
    s!"Reverted to v2.1. Reason: Terra Anomaly Detection. Adjusted Confidence: {conf}%." .error
  addAgentMessage s2
    "Rollback completed. Model v2.1 restored. I’ve logged the event and can generate release notes."
    .success none

/-- The modal's Cancel button: `setShowRollbackModal(false)` only. -/
def cancelRollback (s : State) : State :=
  { s with showRollbackModal := false }

/-- `toggleNetwork`: flip `networkEnabled` and log the interruption or the
restoration. -/
def toggleNetwork (s : State) : State :=
  let s1 := { s with networkEnabled := !s.networkEnabled }
  if s.networkEnabled then
    addLog s1 "Network Failure" "Telemetry stream interrupted manually." .warning
  else
    addLog s1 "Network Restored" "Telemetry resumed." .success

/-- `replayTimeline`: reset `tickIndex`, restart the simulation and log
"Replay".  Note: the phase is NOT changed. -/
def replayTimeline (s : State) : State :=
  let s1 := startSimulation { s with tickIndex := 0 }
  addLog s1 "Replay" "Replaying last session data." .info

/-- The operator actions and timer firings that drive the engine. -/
inductive Event
  | startGuided
  | shadowComplete
  | continueToSetup
  | startCanary
  | rollbackClick
  | continueRollout
  | confirmRollback
  | cancelRollback
  | replay
  | toggleNetwork
  | tick
  | decisionTimeoutFire
  | setAgentConfidence (n : Nat)
  | setRolloutDuration (d : Int)
  | setCanaryPercent (p : Nat)
deriving DecidableEq, Repr

/-- Dispatch of one event to its handler.  A `tick` is one firing of the 1 s
interval (only possible while the interval is live): it advances `tickIndex`
and the clock.  `decisionTimeoutFire` is the expiry of the armed 60 s decision
timeout. -/
def handle (e : Event) (s : State) : State :=
  match e with
  | .startGuided => handleStartGuided s
  | .shadowComplete => fireShadowComplete s
  | .continueToSetup => handleContinueToSetup s
  | .startCanary => handleStartCanary s
  | .rollbackClick => handleRollbackClick s
  | .continueRollout => handleContinueRollout s
  | .confirmRollback => confirmRollback s
  | .cancelRollback => cancelRollback s
  | .replay => replayTimeline s
  | .toggleNetwork => toggleNetwork s
  | .tick =>
      if s.simRunning then
        { s with tickIndex := s.tickIndex + 1, now := s.now + TICK_INTERVAL_MS }
      else
        s
  | .decisionTimeoutFire =>
      if s.decisionTimer.isSome then
        { s with recommendationTimeout := true, decisionTimer := none }
      else
        s
  | .setAgentConfidence n => { s with agentConfidence := n }
  | .setRolloutDuration d => { s with rolloutDuration := d }
  | .setCanaryPercent p => { s with canaryPercent := p }

/-- One engine step: run the handler, then let React re-render and re-run the
effects until quiescent. -/
def applyEvent (e : Event) (s : State) : State := stabilize (handle e s)

/-- Run a sequence of events. -/
def runEvents (evs : List Event) (s : State) : State :=
  evs.foldl (fun t e => applyEvent e t) s

/-- The initial state after mount: both effects have run once (the metric
effect early-returns in IDLE; the timeout effect resets the flag), so the
bookkeeping dependencies match the initial render. -/
def initState (rand : Nat → Rat) (t0 : Int) : State :=
  { phase := .IDLE, metrics := [], messages := [], logs := []
  , activeModel := BASELINE_MODEL.version
  , shadowTestStatus := .idle, shadowPending := false
  , networkEnabled := true, canaryPercent := 5, rolloutDuration := 20
  , tickIndex := 0, showRollbackModal := false
  , recommendationTimeout := false, agentConfidence := 83
  , simRunning := false, pendingMessages := [], decisionTimer := none
  , rand := rand, randCtr := 0, now := t0
  , lastMetricDeps := (0, .IDLE, true), lastTimeoutPhase := .IDLE }

/-- Number of times the anomaly evaluation has fired, counted through its
"Anomaly Detected" audit-log records. -/
def anomalyFireCount (s : State) : Nat :=
  s.logs.countP (fun l => l.event == "Anomaly Detected")

/-- The effect bookkeeping agrees with the current render, i.e. the state is
quiescent (every output of `applyEvent` satisfies this). -/
def depsConsistent (s : State) : Prop :=
  s.lastMetricDeps = metricDeps s ∧ s.lastTimeoutPhase = s.phase

instance (s : State) : Decidable (depsConsistent s) := by
  unfold depsConsistent; infer_instance

/-- The guided-release action sequence of the scenario in the spec:
start, shadow-test completion, continue to setup, start the canary. -/
def guidedEvents : List Event :=
  [.startGuided, .shadowComplete, .continueToSetup, .startCanary]

/-- The canonical Monitoring session: the guided sequence followed by `n`
firings of the 1 s interval, with the network enabled throughout. -/
def sessionAfter (rand : Nat → Rat) (t0 : Int) (n : Nat) : State :=
  runEvents (guidedEvents ++ List.replicate n .tick) (initState rand t0)

/-- The all-zero random oracle used for concrete executions. -/
def rzero : Nat → Rat := fun _ => 0

/-- The "Rollback Executed" record written by `confirmRollback`: id and
timestamp freshly generated, details carrying the operator-adjusted
confidence. -/
def rollbackExecutedEntry (idx : Nat) (ts : Int) (conf : Nat) : LogEntry :=
  { id := idx, timestamp := ts, event := "Rollback Executed"
  , details := s!"Reverted to v2.1. Reason: Terra Anomaly Detection. Adjusted Confidence: {conf}%."
  , type := .error }

/-! ### Field lemmas for the effect bodies -/

lemma mBody_tickIndex (s : State) : (metricEffectBody s).tickIndex = s.tickIndex := by
  unfold metricEffectBody
  split <;> (try split) <;> rfl

lemma mBody_networkEnabled (s : State) :
    (metricEffectBody s).networkEnabled = s.networkEnabled := by
  unfold metricEffectBody
  split <;> (try split) <;> rfl

lemma mBody_simRunning (s : State) : (metricEffectBody s).simRunning = s.simRunning := by
  unfold metricEffectBody
  split <;> (try split) <;> rfl

lemma mBody_lastMetricDeps (s : State) :
    (metricEffectBody s).lastMetricDeps = s.lastMetricDeps := by
  unfold metricEffectBody
  split <;> (try split) <;> rfl

lemma mBody_lastTimeoutPhase (s : State) :
    (metricEffectBody s).lastTimeoutPhase = s.lastTimeoutPhase := by
  unfold metricEffectBody
  split <;> (try split) <;> rfl

lemma mBody_recommendationTimeout (s : State) :
    (metricEffectBody s).recommendationTimeout = s.recommendationTimeout := by
  unfold metricEffectBody
  split <;> (try split) <;> rfl

lemma mBody_decisionTimer (s : State) :
    (metricEffectBody s).decisionTimer = s.decisionTimer := by
  unfold metricEffectBody
  split <;> (try split) <;> rfl

lemma mBody_showRollbackModal (s : State) :
    (metricEffectBody s).showRollbackModal = s.showRollbackModal := by
  unfold metricEffectBody
  split <;> (try split) <;> rfl

/-- The metric-effect body never changes the phase except by firing the
anomaly, which requires phase MONITORING. -/
lemma mBody_phase (s : State) :
    (metricEffectBody s).phase = s.phase ∨
      (s.phase = .MONITORING ∧ s.tickIndex = ANOMALY_TICK_INDEX ∧
        (metricEffectBody s).phase = .ANOMALY_DETECTED) := by
  unfold metricEffectBody
  split
  · exact Or.inl rfl
  · split
    · rename_i hfire
      exact Or.inr ⟨hfire.2, hfire.1, rfl⟩
    · exact Or.inl rfl

lemma mBody_phase_of_ne_M (s : State) (h : s.phase ≠ .MONITORING) :
    (metricEffectBody s).phase = s.phase := by
  rcases mBody_phase s with h1 | h1
  · exact h1
  · exact absurd h1.1 h

/-- If the early-return guard trips, the body is the identity. -/
lemma mBody_guard (s : State)
    (h : (s.phase ≠ .MONITORING ∧ s.phase ≠ .ANOMALY_DETECTED) ∨ s.networkEnabled = false) :
    metricEffectBody s = s := by
  unfold metricEffectBody
  rw [if_pos h]

lemma tBody_phase (s : State) : (timeoutEffectBody s).phase = s.phase := by
  unfold timeoutEffectBody; split <;> rfl

lemma tBody_tickIndex (s : State) : (timeoutEffectBody s).tickIndex = s.tickIndex := by
  unfold timeoutEffectBody; split <;> rfl

lemma tBody_networkEnabled (s : State) :
    (timeoutEffectBody s).networkEnabled = s.networkEnabled := by
  unfold timeoutEffectBody; split <;> rfl

lemma tBody_metrics (s : State) : (timeoutEffectBody s).metrics = s.metrics := by
  unfold timeoutEffectBody; split <;> rfl

lemma tBody_logs (s : State) : (timeoutEffectBody s).logs = s.logs := by
  unfold timeoutEffectBody; split <;> rfl

lemma tBody_simRunning (s : State) : (timeoutEffectBody s).simRunning = s.simRunning := by
  unfold timeoutEffectBody; split <;> rfl

lemma tBody_lastMetricDeps (s : State) :
    (timeoutEffectBody s).lastMetricDeps = s.lastMetricDeps := by
  unfold timeoutEffectBody; split <;> rfl

lemma tBody_lastTimeoutPhase (s : State) :
    (timeoutEffectBody s).lastTimeoutPhase = s.lastTimeoutPhase := by
  unfold timeoutEffectBody; split <;> rfl

lemma tBody_metricDeps (s : State) : metricDeps (timeoutEffectBody s) = metricDeps s := by
  unfold metricDeps
  rw [tBody_phase, tBody_tickIndex, tBody_networkEnabled]

/-! ### Stabilization lemmas -/

lemma metricCheck_id (s : State) (h : s.lastMetricDeps = metricDeps s) :
    metricCheck s = s := by
  unfold metricCheck
  rw [if_neg (not_ne_iff.mpr h.symm)]

lemma timeoutCheck_id (s : State) (h : s.lastTimeoutPhase = s.phase) :
    timeoutCheck s = s := by
  unfold timeoutCheck
  rw [if_neg (not_ne_iff.mpr h.symm)]

/-- On a quiescent state one render pass does nothing. -/
lemma runEffectsOnce_id (s : State) (h : depsConsistent s) : runEffectsOnce s = s := by
  unfold runEffectsOnce
  rw [metricCheck_id s h.1, timeoutCheck_id s h.2]

/-- After the timeout pass its bookkeeping is quiescent. -/
lemma timeoutCheck_consistent (s : State) :
    (timeoutCheck s).lastTimeoutPhase = (timeoutCheck s).phase := by
  unfold timeoutCheck
  split
  · rw [tBody_lastTimeoutPhase, tBody_phase]
  · rename_i h; exact (not_ne_iff.mp h).symm

/-- After one render pass the timeout-effect bookkeeping is quiescent. -/
lemma runEffectsOnce_timeout_consistent (s : State) :
    (runEffectsOnce s).lastTimeoutPhase = (runEffectsOnce s).phase := by
  unfold runEffectsOnce
  exact timeoutCheck_consistent _

lemma timeoutCheck_phase (s : State) : (timeoutCheck s).phase = s.phase := by
  unfold timeoutCheck
  split
  · rw [tBody_phase]
  · rfl

lemma timeoutCheck_tickIndex (s : State) : (timeoutCheck s).tickIndex = s.tickIndex := by
  unfold timeoutCheck
  split
  · rw [tBody_tickIndex]
  · rfl

lemma timeoutCheck_networkEnabled (s : State) :
    (timeoutCheck s).networkEnabled = s.networkEnabled := by
  unfold timeoutCheck
  split
  · rw [tBody_networkEnabled]
  · rfl

lemma timeoutCheck_lastMetricDeps (s : State) :
    (timeoutCheck s).lastMetricDeps = s.lastMetricDeps := by
  unfold timeoutCheck
  split
  · rw [tBody_lastMetricDeps]
  · rfl

lemma timeoutCheck_metricDeps (s : State) :
    metricDeps (timeoutCheck s) = metricDeps s := by
  unfold metricDeps
  rw [timeoutCheck_phase, timeoutCheck_tickIndex, timeoutCheck_networkEnabled]

lemma timeoutCheck_metrics (s : State) : (timeoutCheck s).metrics = s.metrics := by
  unfold timeoutCheck
  split
  · rw [tBody_metrics]
  · rfl

lemma timeoutCheck_logs (s : State) : (timeoutCheck s).logs = s.logs := by
  unfold timeoutCheck
  split
  · rw [tBody_logs]
  · rfl

lemma timeoutCheck_simRunning (s : State) :
    (timeoutCheck s).simRunning = s.simRunning := by
  unfold timeoutCheck
  split
  · rw [tBody_simRunning]
  · rfl

lemma metricCheck_tickIndex (s : State) : (metricCheck s).tickIndex = s.tickIndex := by
  unfold metricCheck
  split
  · rw [mBody_tickIndex]
  · rfl

lemma metricCheck_networkEnabled (s : State) :
    (metricCheck s).networkEnabled = s.networkEnabled := by
  unfold metricCheck
  split
  · rw [mBody_networkEnabled]
  · rfl

lemma metricCheck_simRunning (s : State) :
    (metricCheck s).simRunning = s.simRunning := by
  unfold metricCheck
  split
  · rw [mBody_simRunning]
  · rfl

lemma metricDeps_mBody (s : State) :
    metricDeps (metricEffectBody s)
      = (s.tickIndex, (metricEffectBody s).phase, s.networkEnabled) := by
  unfold metricDeps
  rw [mBody_tickIndex, mBody_networkEnabled]

/-- After the metric pass, either its bookkeeping is quiescent or the anomaly
fired during the pass (the only way the body changes its own dependencies). -/
lemma metricCheck_metric_consistent (s : State) :
    (metricCheck s).lastMetricDeps = metricDeps (metricCheck s) ∨
      ((metricCheck s).phase = .ANOMALY_DETECTED ∧
        (metricCheck s).lastMetricDeps =
          ((metricCheck s).tickIndex, .MONITORING, (metricCheck s).networkEnabled)) := by
  unfold metricCheck
  split
  · rcases mBody_phase { s with lastMetricDeps := metricDeps s } with h | h
    · left
      rw [mBody_lastMetricDeps, metricDeps_mBody, h]
      exact rfl
    · right
      have hM : s.phase = .MONITORING := h.1
      refine ⟨h.2.2, ?_⟩
      rw [mBody_lastMetricDeps, mBody_tickIndex, mBody_networkEnabled]
      show metricDeps s = (s.tickIndex, AppPhase.MONITORING, s.networkEnabled)
      unfold metricDeps
      rw [hM]
  · rename_i h
    exact Or.inl (not_ne_iff.mp h).symm

/-- If the body cannot fire (phase is not MONITORING), the metric pass leaves
its bookkeeping quiescent. -/
lemma metricCheck_metric_consistent_of_ne_M (s : State) (h : s.phase ≠ .MONITORING) :
    (metricCheck s).lastMetricDeps = metricDeps (metricCheck s) := by
  unfold metricCheck
  split
  · have e4 : (metricEffectBody { s with lastMetricDeps := metricDeps s }).phase = s.phase :=
      mBody_phase_of_ne_M _ h
    rw [mBody_lastMetricDeps, metricDeps_mBody, e4]
    exact rfl
  · rename_i hns
    exact (not_ne_iff.mp hns).symm

/-- Two render passes always reach the fixpoint. -/
lemma stabilize_consistent (s : State) : depsConsistent (stabilize s) := by
  refine ⟨?_, runEffectsOnce_timeout_consistent (runEffectsOnce s)⟩
  show (stabilize s).lastMetricDeps = metricDeps (stabilize s)
  unfold stabilize runEffectsOnce
  rcases metricCheck_metric_consistent s with h | h
  · have h1 : (timeoutCheck (metricCheck s)).lastMetricDeps
        = metricDeps (timeoutCheck (metricCheck s)) := by
      rw [timeoutCheck_lastMetricDeps, timeoutCheck_metricDeps]
      exact h
    rw [metricCheck_id _ h1, timeoutCheck_lastMetricDeps, timeoutCheck_metricDeps]
    exact h1
  · have hne : (timeoutCheck (metricCheck s)).phase ≠ .MONITORING := by
      rw [timeoutCheck_phase, h.1]
      decide
    have h2 := metricCheck_metric_consistent_of_ne_M _ hne
    rw [timeoutCheck_lastMetricDeps, timeoutCheck_metricDeps]
    exact h2

/-- Every engine step ends in a quiescent state. -/
lemma applyEvent_consistent (e : Event) (s : State) : depsConsistent (applyEvent e s) :=
  stabilize_consistent _

/-- On a quiescent state the render loop does nothing. -/
lemma stabilize_id (s : State) (h : depsConsistent s) : stabilize s = s := by
  unfold stabilize
  rw [runEffectsOnce_id s h, runEffectsOnce_id s h]

lemma mBody_phase_of_ne_tick (s : State) (h : s.tickIndex ≠ ANOMALY_TICK_INDEX) :
    (metricEffectBody s).phase = s.phase := by
  rcases mBody_phase s with h1 | h1
  · exact h1
  · exact absurd h1.2.1 h

lemma metricCheck_phase_of_ne_M (s : State) (h : s.phase ≠ .MONITORING) :
    (metricCheck s).phase = s.phase := by
  unfold metricCheck
  split
  · exact mBody_phase_of_ne_M _ h
  · rfl

lemma metricCheck_phase_of_ne_tick (s : State) (h : s.tickIndex ≠ ANOMALY_TICK_INDEX) :
    (metricCheck s).phase = s.phase := by
  unfold metricCheck
  split
  · exact mBody_phase_of_ne_tick _ h
  · rfl

/-- If the phase after the handler is not MONITORING, stabilization cannot
change it. -/
lemma stabilize_phase_of_ne_M (u : State) (h : u.phase ≠ .MONITORING) :
    (stabilize u).phase = u.phase := by
  unfold stabilize runEffectsOnce
  have h1 : (metricCheck u).phase = u.phase := metricCheck_phase_of_ne_M u h
  have h2 : (timeoutCheck (metricCheck u)).phase = u.phase :=
    (timeoutCheck_phase _).trans h1
  have h3 : (metricCheck (timeoutCheck (metricCheck u))).phase = u.phase := by
    refine (metricCheck_phase_of_ne_M _ ?_).trans h2
    rw [h2]
    exact h
  exact (timeoutCheck_phase _).trans h3

/-- If the tick index after the handler is away from the threshold,
stabilization cannot change the phase. -/
lemma stabilize_phase_of_ne_tick (u : State) (h : u.tickIndex ≠ ANOMALY_TICK_INDEX) :
    (stabilize u).phase = u.phase := by
  unfold stabilize runEffectsOnce
  have ht1 : (metricCheck u).tickIndex = u.tickIndex := metricCheck_tickIndex u
  have ht2 : (timeoutCheck (metricCheck u)).tickIndex = u.tickIndex :=
    (timeoutCheck_tickIndex _).trans ht1
  have h1 : (metricCheck u).phase = u.phase := metricCheck_phase_of_ne_tick u h
  have h2 : (timeoutCheck (metricCheck u)).phase = u.phase :=
    (timeoutCheck_phase _).trans h1
  have h3 : (metricCheck (timeoutCheck (metricCheck u))).phase = u.phase := by
    refine (metricCheck_phase_of_ne_tick _ ?_).trans h2
    rw [ht2]
    exact h
  exact (timeoutCheck_phase _).trans h3

lemma metricCheck_metrics_of_guard (s : State)
    (h : (s.phase ≠ .MONITORING ∧ s.phase ≠ .ANOMALY_DETECTED) ∨ s.networkEnabled = false) :
    (metricCheck s).metrics = s.metrics := by
  unfold metricCheck
  split
  · rw [mBody_guard { s with lastMetricDeps := metricDeps s } h]
  · rfl

lemma metricCheck_logs_of_guard (s : State)
    (h : (s.phase ≠ .MONITORING ∧ s.phase ≠ .ANOMALY_DETECTED) ∨ s.networkEnabled = false) :
    (metricCheck s).logs = s.logs := by
  unfold metricCheck
  split
  · rw [mBody_guard { s with lastMetricDeps := metricDeps s } h]
  · rfl

lemma metricCheck_phase_of_guard (s : State)
    (h : (s.phase ≠ .MONITORING ∧ s.phase ≠ .ANOMALY_DETECTED) ∨ s.networkEnabled = false) :
    (metricCheck s).phase = s.phase := by
  unfold metricCheck
  split
  · rw [mBody_guard { s with lastMetricDeps := metricDeps s } h]
  · rfl

/-- When the sampling guard trips (wrong phase or network disabled), the whole
render loop leaves metrics and logs untouched and the phase unchanged. -/
lemma stabilize_frozen_of_guard (u : State)
    (h : (u.phase ≠ .MONITORING ∧ u.phase ≠ .ANOMALY_DETECTED) ∨ u.networkEnabled = false) :
    (stabilize u).metrics = u.metrics ∧ (stabilize u).logs = u.logs ∧
      (stabilize u).phase = u.phase := by
  unfold stabilize runEffectsOnce
  have e1p : (metricCheck u).phase = u.phase := metricCheck_phase_of_guard u h
  have e1n : (metricCheck u).networkEnabled = u.networkEnabled := metricCheck_networkEnabled u
  have e2p : (timeoutCheck (metricCheck u)).phase = u.phase :=
    (timeoutCheck_phase _).trans e1p
  have e2n : (timeoutCheck (metricCheck u)).networkEnabled = u.networkEnabled :=
    (timeoutCheck_networkEnabled _).trans e1n
  have hg2 : ((timeoutCheck (metricCheck u)).phase ≠ .MONITORING ∧
      (timeoutCheck (metricCheck u)).phase ≠ .ANOMALY_DETECTED) ∨
      (timeoutCheck (metricCheck u)).networkEnabled = false := by
    rw [e2p, e2n]
    exact h
  have e3p : (metricCheck (timeoutCheck (metricCheck u))).phase = u.phase :=
    (metricCheck_phase_of_guard _ hg2).trans e2p
  refine ⟨?_, ?_, (timeoutCheck_phase _).trans e3p⟩
  · rw [timeoutCheck_metrics, metricCheck_metrics_of_guard _ hg2,
      timeoutCheck_metrics, metricCheck_metrics_of_guard u h]
  · rw [timeoutCheck_logs, metricCheck_logs_of_guard _ hg2,
      timeoutCheck_logs, metricCheck_logs_of_guard u h]

/-- When the handler leaves the state quiescent, the step is the handler. -/
lemma applyEvent_quiet (e : Event) (s : State) (h : depsConsistent (handle e s)) :
    applyEvent e s = handle e s :=
  stabilize_id _ h

lemma applyEvent_phase_of_ne_M (e : Event) (s : State) (ph : AppPhase)
    (h : (handle e s).phase = ph) (hne : ph ≠ .MONITORING) :
    (applyEvent e s).phase = ph := by
  unfold applyEvent
  rw [stabilize_phase_of_ne_M _ (by rw [h]; exact hne)]
  exact h

lemma applyEvent_phase_of_ne_tick (e : Event) (s : State)
    (h : (handle e s).tickIndex ≠ ANOMALY_TICK_INDEX) :
    (applyEvent e s).phase = (handle e s).phase := by
  unfold applyEvent
  exact stabilize_phase_of_ne_tick _ h

/-! ### Claim C1 -/

/-- C1, counterexample.  The claim demands that `currentPhase()` follow the
transition table of spec section 4.1 and that any unlisted action fail with
`InvalidTransition`, leaving the phase unchanged.  Both parts fail on the code:
(i) on the fully legal sequence guided-start / ticks / rollback-request, the
table prescribes phase RollbackConfirm, but the code merely opens a modal and
`currentPhase()` stays ANOMALY_DETECTED (no `setPhase(ROLLBACK_CONFIRM)` exists
anywhere); (ii) `continueToSetup` invoked from IDLE — a phase whose row does
not list it — is silently applied: the phase changes to CANARY_SETUP and no
error of any kind is raised (the code contains no `InvalidTransition`). -/
theorem c1_counterexample :
    (runEvents (guidedEvents ++ [.tick, .tick, .tick, .rollbackClick])
        (initState rzero 0)).phase = .ANOMALY_DETECTED
    ∧ (runEvents (guidedEvents ++ [.tick, .tick, .tick, .rollbackClick])
        (initState rzero 0)).phase ≠ .ROLLBACK_CONFIRM
    ∧ (initState rzero 0).phase = .IDLE
    ∧ (applyEvent .continueToSetup (initState rzero 0)).phase = .CANARY_SETUP := by
  refine ⟨by decide, by decide, rfl, by decide⟩

/-- C1, amended: the handlers implement the listed phase targets but perform no
phase guarding whatsoever and never raise `InvalidTransition`: each action
applies its state changes unconditionally from any (quiescent) phase, so an
action invoked from a phase whose row does not list it is silently applied
rather than rejected; rollback-request is realized as a confirmation-modal flag
with the phase remaining ANOMALY_DETECTED (the ROLLBACK_CONFIRM phase value is
never entered), and replay leaves the phase unchanged.  Legality is enforced
only by which controls the view renders. -/
theorem c1_amended (s : State) (hc : depsConsistent s) :
    (applyEvent .startGuided s).phase = .SHADOW_TEST
    ∧ (applyEvent .continueToSetup s).phase = .CANARY_SETUP
    ∧ (applyEvent .startCanary s).phase = .MONITORING
    ∧ (applyEvent .confirmRollback s).phase = .ROLLED_BACK
    ∧ (applyEvent .rollbackClick s).phase = s.phase
    ∧ (applyEvent .rollbackClick s).showRollbackModal = true
    ∧ (applyEvent .cancelRollback s).phase = s.phase
    ∧ (applyEvent .continueRollout s).phase = s.phase
    ∧ (applyEvent .replay s).phase = s.phase := by
  refine ⟨?_, ?_, ?_, ?_, ?_, ?_, ?_, ?_, ?_⟩
  · exact applyEvent_phase_of_ne_M _ s _ rfl (by decide)
  · exact applyEvent_phase_of_ne_M _ s _ rfl (by decide)
  · exact (applyEvent_phase_of_ne_tick .startCanary s
      (by rw [show (handle .startCanary s).tickIndex = 0 from rfl]; decide)).trans rfl
  · exact applyEvent_phase_of_ne_M _ s _ rfl (by decide)
  · rw [applyEvent_quiet .rollbackClick s hc]; rfl
  · rw [applyEvent_quiet .rollbackClick s hc]; rfl
  · rw [applyEvent_quiet .cancelRollback s hc]; rfl
  · rw [applyEvent_quiet .continueRollout s hc]; rfl
  · exact (applyEvent_phase_of_ne_tick .replay s
      (by rw [show (handle .replay s).tickIndex = 0 from rfl]; decide)).trans rfl

lemma stabilize_tickIndex (u : State) : (stabilize u).tickIndex = u.tickIndex := by
  unfold stabilize runEffectsOnce
  rw [timeoutCheck_tickIndex, metricCheck_tickIndex, timeoutCheck_tickIndex,
    metricCheck_tickIndex]

lemma stabilize_networkEnabled (u : State) :
    (stabilize u).networkEnabled = u.networkEnabled := by
  unfold stabilize runEffectsOnce
  rw [timeoutCheck_networkEnabled, metricCheck_networkEnabled,
    timeoutCheck_networkEnabled, metricCheck_networkEnabled]

lemma stabilize_simRunning (u : State) : (stabilize u).simRunning = u.simRunning := by
  unfold stabilize runEffectsOnce
  rw [timeoutCheck_simRunning, metricCheck_simRunning, timeoutCheck_simRunning,
    metricCheck_simRunning]

/-- The interval callback, when the interval is live, only advances the tick
counter and the clock. -/
lemma handle_tick_of_running (s : State) (hr : s.simRunning = true) :
    handle .tick s
      = { s with tickIndex := s.tickIndex + 1, now := s.now + TICK_INTERVAL_MS } := by
  unfold handle
  rw [if_pos hr]

/-- C1, witness: the amended theorem applied at the initial state. -/
theorem c1_amended_witness :
    (applyEvent .startGuided (initState rzero 0)).phase = .SHADOW_TEST
    ∧ (applyEvent .continueToSetup (initState rzero 0)).phase = .CANARY_SETUP
    ∧ (applyEvent .startCanary (initState rzero 0)).phase = .MONITORING
    ∧ (applyEvent .confirmRollback (initState rzero 0)).phase = .ROLLED_BACK
    ∧ (applyEvent .rollbackClick (initState rzero 0)).phase = (initState rzero 0).phase
    ∧ (applyEvent .rollbackClick (initState rzero 0)).showRollbackModal = true
    ∧ (applyEvent .cancelRollback (initState rzero 0)).phase = (initState rzero 0).phase
    ∧ (applyEvent .continueRollout (initState rzero 0)).phase = (initState rzero 0).phase
    ∧ (applyEvent .replay (initState rzero 0)).phase = (initState rzero 0).phase :=
  c1_amended (initState rzero 0) ⟨rfl, rfl⟩

/-! ### Claim C9 -/

/-- C9, counterexample.  The claim demands that `startCanary` with a
non-positive rollout duration fail synchronously with `InvalidConfiguration`
and not enter Monitoring.  In the code `handleStartCanary` performs no
validation at all (and no `InvalidConfiguration` exists anywhere): after the
operator types a negative duration, starting the canary still enters
MONITORING. -/
theorem c9_counterexample :
    (runEvents [.startGuided, .shadowComplete, .continueToSetup,
        .setRolloutDuration (-3), .startCanary] (initState rzero 0)).rolloutDuration = -3
    ∧ (runEvents [.startGuided, .shadowComplete, .continueToSetup,
        .setRolloutDuration (-3), .startCanary] (initState rzero 0)).phase = .MONITORING := by
  exact ⟨by decide, by decide⟩

/-- C9, amended: `startCanary` performs no configuration validation: for any
rollout duration (non-positive included) and any canary percent (outside
{1,5,10} included) it transitions unconditionally to MONITORING; no
`InvalidConfiguration` condition exists in the code, the only guards being the
view (duration is a free numeric input; percent buttons only offer 1/5/10). -/
theorem c9_amended (s : State) (hc : depsConsistent s) (d : Int) (hd : d ≤ 0)
    (p : Nat) (hp : p ≠ 1 ∧ p ≠ 5 ∧ p ≠ 10) :
    (applyEvent (.setRolloutDuration d) s).rolloutDuration = d
    ∧ (applyEvent .startCanary (applyEvent (.setRolloutDuration d) s)).phase = .MONITORING
    ∧ (applyEvent (.setCanaryPercent p) s).canaryPercent = p
    ∧ (applyEvent .startCanary (applyEvent (.setCanaryPercent p) s)).phase = .MONITORING := by
  refine ⟨?_, ?_, ?_, ?_⟩
  · rw [applyEvent_quiet (.setRolloutDuration d) s hc]; rfl
  · exact (applyEvent_phase_of_ne_tick .startCanary _
      (by rw [show (handle .startCanary _).tickIndex = 0 from rfl]; decide)).trans rfl
  · rw [applyEvent_quiet (.setCanaryPercent p) s hc]; rfl
  · exact (applyEvent_phase_of_ne_tick .startCanary _
      (by rw [show (handle .startCanary _).tickIndex = 0 from rfl]; decide)).trans rfl

/-- C9, witness: the amended theorem at the initial state with duration -3 and
percent 7. -/
theorem c9_amended_witness :
    (applyEvent (.setRolloutDuration (-3)) (initState rzero 0)).rolloutDuration = -3
    ∧ (applyEvent .startCanary
        (applyEvent (.setRolloutDuration (-3)) (initState rzero 0))).phase = .MONITORING
    ∧ (applyEvent (.setCanaryPercent 7) (initState rzero 0)).canaryPercent = 7
    ∧ (applyEvent .startCanary
        (applyEvent (.setCanaryPercent 7) (initState rzero 0))).phase = .MONITORING :=
  c9_amended (initState rzero 0) ⟨rfl, rfl⟩ (-3) (by decide) 7 (by decide)

/-! ### Claim C6 -/

/-- C6, counterexample.  The claim states that while phase is MONITORING and
the network is disabled, `tickIndex` does not advance.  In the code the 1 s
interval keeps firing regardless of the network flag — only the sample append
is guarded — so after disabling the network at tick 0 and letting the interval
fire twice, the history is frozen at 11 samples but `tickIndex` has advanced
to 2. -/
theorem c6_counterexample :
    (runEvents (guidedEvents ++ [.toggleNetwork]) (initState rzero 0)).tickIndex = 0
    ∧ (runEvents (guidedEvents ++ [.toggleNetwork]) (initState rzero 0)).metrics.length = 11
    ∧ (runEvents (guidedEvents ++ [.toggleNetwork, .tick, .tick])
        (initState rzero 0)).phase = .MONITORING
    ∧ (runEvents (guidedEvents ++ [.toggleNetwork, .tick, .tick])
        (initState rzero 0)).networkEnabled = false
    ∧ (runEvents (guidedEvents ++ [.toggleNetwork, .tick, .tick])
        (initState rzero 0)).metrics.length = 11
    ∧ (runEvents (guidedEvents ++ [.toggleNetwork, .tick, .tick])
        (initState rzero 0)).tickIndex = 2 := by
  exact ⟨by decide, by decide, by decide, by decide, by decide, by decide⟩

/-- C6, amended: while phase is in {MONITORING, ANOMALY_DETECTED} and
`networkEnabled` is false, a tick of the live interval appends no sample (the
history and the logs are frozen) and leaves the phase unchanged — but
`tickIndex` does advance by one per tick, because the interval itself is not
paused; sampling resumes only once `networkEnabled` is set true again. -/
theorem c6_amended (s : State) (hp : s.phase = .MONITORING ∨ s.phase = .ANOMALY_DETECTED)
    (hn : s.networkEnabled = false) (hr : s.simRunning = true) :
    (applyEvent .tick s).metrics = s.metrics
    ∧ (applyEvent .tick s).logs = s.logs
    ∧ (applyEvent .tick s).phase = s.phase
    ∧ (applyEvent .tick s).tickIndex = s.tickIndex + 1
    ∧ (applyEvent .tick s).networkEnabled = false := by
  have hu := handle_tick_of_running s hr
  have hg : ((handle .tick s).phase ≠ .MONITORING ∧
      (handle .tick s).phase ≠ .ANOMALY_DETECTED) ∨
      (handle .tick s).networkEnabled = false := by
    rw [hu]
    exact Or.inr hn
  have hfr := stabilize_frozen_of_guard (handle .tick s) hg
  unfold applyEvent
  refine ⟨?_, ?_, ?_, ?_, ?_⟩
  · rw [hfr.1, hu]
  · rw [hfr.2.1, hu]
  · rw [hfr.2.2, hu]
  · rw [stabilize_tickIndex, hu]
  · rw [stabilize_networkEnabled, hu]
    exact hn

lemma tBody_showRollbackModal (s : State) :
    (timeoutEffectBody s).showRollbackModal = s.showRollbackModal := by
  unfold timeoutEffectBody; split <;> rfl

lemma metricCheck_showRollbackModal (s : State) :
    (metricCheck s).showRollbackModal = s.showRollbackModal := by
  unfold metricCheck
  split
  · rw [mBody_showRollbackModal]
  · rfl

lemma timeoutCheck_showRollbackModal (s : State) :
    (timeoutCheck s).showRollbackModal = s.showRollbackModal := by
  unfold timeoutCheck
  split
  · rw [tBody_showRollbackModal]
  · rfl

lemma stabilize_showRollbackModal (u : State) :
    (stabilize u).showRollbackModal = u.showRollbackModal := by
  unfold stabilize runEffectsOnce
  rw [timeoutCheck_showRollbackModal, metricCheck_showRollbackModal,
    timeoutCheck_showRollbackModal, metricCheck_showRollbackModal]

lemma tBody_recTimeout_false (s : State) (h : s.recommendationTimeout = false) :
    (timeoutEffectBody s).recommendationTimeout = false := by
  unfold timeoutEffectBody
  split
  · exact h
  · rfl

lemma metricCheck_recTimeout (s : State) :
    (metricCheck s).recommendationTimeout = s.recommendationTimeout := by
  unfold metricCheck
  split
  · rw [mBody_recommendationTimeout]
  · rfl

lemma timeoutCheck_recTimeout_false (s : State) (h : s.recommendationTimeout = false) :
    (timeoutCheck s).recommendationTimeout = false := by
  unfold timeoutCheck
  split
  · exact tBody_recTimeout_false _ h
  · exact h

/-- The render loop never sets the timeout flag: once cleared, it stays
cleared through stabilization. -/
lemma stabilize_recTimeout_false (u : State) (h : u.recommendationTimeout = false) :
    (stabilize u).recommendationTimeout = false := by
  unfold stabilize runEffectsOnce
  refine timeoutCheck_recTimeout_false _ ?_
  rw [metricCheck_recTimeout]
  refine timeoutCheck_recTimeout_false _ ?_
  rw [metricCheck_recTimeout]
  exact h

lemma handle_tick_phase (t : State) : (handle .tick t).phase = t.phase := by
  show (if t.simRunning then
      ({ t with tickIndex := t.tickIndex + 1, now := t.now + TICK_INTERVAL_MS } : State)
    else t).phase = t.phase
  split <;> rfl

lemma handle_tick_metrics (t : State) : (handle .tick t).metrics = t.metrics := by
  show (if t.simRunning then
      ({ t with tickIndex := t.tickIndex + 1, now := t.now + TICK_INTERVAL_MS } : State)
    else t).metrics = t.metrics
  split <;> rfl

/-- After a rollback (phase ROLLED_BACK) a tick can no longer touch the metric
history or the phase. -/
lemma tick_frozen_RB (t : State) (h : t.phase = .ROLLED_BACK) :
    (applyEvent .tick t).metrics = t.metrics
    ∧ (applyEvent .tick t).phase = .ROLLED_BACK := by
  have hg : ((handle .tick t).phase ≠ .MONITORING ∧
      (handle .tick t).phase ≠ .ANOMALY_DETECTED) ∨
      (handle .tick t).networkEnabled = false := by
    rw [handle_tick_phase, h]
    exact Or.inl ⟨by decide, by decide⟩
  have hfr := stabilize_frozen_of_guard (handle .tick t) hg
  refine ⟨hfr.1.trans (handle_tick_metrics t), ?_⟩
  rw [show (applyEvent .tick t).phase = (handle .tick t).phase from hfr.2.2,
    handle_tick_phase, h]

/-- Iterated form of `tick_frozen_RB`. -/
lemma runEvents_ticks_frozen_RB (k : Nat) :
    ∀ t : State, t.phase = .ROLLED_BACK →
      (runEvents (List.replicate k .tick) t).metrics = t.metrics
      ∧ (runEvents (List.replicate k .tick) t).phase = .ROLLED_BACK := by
  induction k with
  | zero => exact fun t h => ⟨rfl, h⟩
  | succ k ih =>
      intro t h
      have hstep := tick_frozen_RB t h
      have hrec := ih (applyEvent .tick t) hstep.2
      rw [List.replicate_succ]
      exact ⟨hrec.1.trans hstep.1, hrec.2⟩

/-- With the interval cancelled and the state quiescent, a tick is a no-op. -/
lemma applyEvent_tick_stopped (t : State) (hc : depsConsistent t)
    (hr : t.simRunning = false) :
    applyEvent .tick t = t := by
  unfold applyEvent
  have hh : handle .tick t = t := by
    unfold handle
    rw [if_neg (by rw [hr]; exact Bool.false_ne_true)]
  rw [hh]
  exact stabilize_id t hc

/-- Iterated form of `applyEvent_tick_stopped`. -/
lemma runEvents_ticks_stopped (t : State) (hc : depsConsistent t)
    (hr : t.simRunning = false) (k : Nat) :
    runEvents (List.replicate k .tick) t = t := by
  induction k with
  | zero => rfl
  | succ k ih =>
      rw [List.replicate_succ]
      show runEvents _ (applyEvent .tick t) = t
      rw [applyEvent_tick_stopped t hc hr]
      exact ih

/-- C6, witness: the amended theorem at the state reached by the guided
sequence followed by a network interruption. -/
theorem c6_amended_witness :
    0 < (runEvents (guidedEvents ++ [.toggleNetwork]) (initState rzero 0)).metrics.length
    ∧ (applyEvent .tick (runEvents (guidedEvents ++ [.toggleNetwork])
        (initState rzero 0))).metrics
      = (runEvents (guidedEvents ++ [.toggleNetwork]) (initState rzero 0)).metrics
    ∧ (applyEvent .tick (runEvents (guidedEvents ++ [.toggleNetwork])
        (initState rzero 0))).tickIndex
      = (runEvents (guidedEvents ++ [.toggleNetwork]) (initState rzero 0)).tickIndex + 1 := by
  have h := c6_amended (runEvents (guidedEvents ++ [.toggleNetwork]) (initState rzero 0))
    (Or.inl (by decide)) (by decide) (by decide)
  exact ⟨by decide, h.1, h.2.2.2.1⟩

lemma warmupPoints_length (rand : Nat → Rat) (c0 : Nat) (n0 : Int) :
    (warmupPoints rand c0 n0).length = 10 := by
  unfold warmupPoints
  rw [List.length_map, List.length_range]

/-! ### Characterization of a live tick -/

/-- Once the state after the metric pass is quiescent, the remaining passes of
the render loop do nothing. -/
lemma stabilize_tail_of_consistent (x : State) (h1 : x.lastMetricDeps = metricDeps x)
    (h2 : x.lastTimeoutPhase = x.phase) :
    timeoutCheck (metricCheck (timeoutCheck x)) = x := by
  rw [timeoutCheck_id x h2, metricCheck_id x h1, timeoutCheck_id x h2]

lemma metricCheck_run (s : State) (hcond : metricDeps s ≠ s.lastMetricDeps) :
    metricCheck s = metricEffectBody { s with lastMetricDeps := metricDeps s } := by
  unfold metricCheck
  rw [if_pos hcond]

lemma timeoutCheck_run (s : State) (hcond : s.phase ≠ s.lastTimeoutPhase) :
    timeoutCheck s = timeoutEffectBody { s with lastTimeoutPhase := s.phase } := by
  unfold timeoutCheck
  rw [if_pos hcond]

lemma tBody_AD (s : State) (h : s.phase = .ANOMALY_DETECTED) :
    timeoutEffectBody s = { s with decisionTimer := some 60000 } := by
  unfold timeoutEffectBody
  rw [if_pos h]

/-- When the guard passes (active phase, network enabled), the effect body is
the sample append, with the anomaly branch exactly at the threshold tick in
MONITORING. -/
lemma mBody_run (s : State)
    (hp : s.phase = .MONITORING ∨ s.phase = .ANOMALY_DETECTED)
    (hn : s.networkEnabled = true) :
    metricEffectBody s =
      if s.tickIndex = ANOMALY_TICK_INDEX ∧ s.phase = .MONITORING then
        fireAnomaly (appendSample s)
      else
        appendSample s := by
  have hg : ¬((s.phase ≠ .MONITORING ∧ s.phase ≠ .ANOMALY_DETECTED) ∨
      s.networkEnabled = false) := by
    rintro (⟨h1, h2⟩ | h3)
    · rcases hp with h | h
      · exact h1 h
      · exact h2 h
    · rw [hn] at h3
      exact absurd h3 (by decide)
  unfold metricEffectBody
  rw [if_neg hg]

/-- A live tick with the network up, away from the anomaly threshold: the step
appends exactly one sample and advances the tick counter, the clock and the
effect bookkeeping. -/
lemma applyEvent_tick_nofire (s : State) (hc : depsConsistent s)
    (hr : s.simRunning = true) (hn : s.networkEnabled = true)
    (hp : s.phase = .MONITORING ∨ s.phase = .ANOMALY_DETECTED)
    (hf : ¬(s.tickIndex + 1 = ANOMALY_TICK_INDEX ∧ s.phase = .MONITORING)) :
    applyEvent .tick s =
      appendSample
        { s with tickIndex := s.tickIndex + 1, now := s.now + TICK_INTERVAL_MS
               , lastMetricDeps := (s.tickIndex + 1, s.phase, s.networkEnabled) } := by
  have hu := handle_tick_of_running s hr
  have hcond : metricDeps (handle .tick s) ≠ (handle .tick s).lastMetricDeps := by
    rw [hu]
    intro he
    exact Nat.succ_ne_self s.tickIndex
      (congrArg (fun q : MetricDeps => q.1) (he.trans hc.1))
  have step1 : metricCheck (handle .tick s) =
      appendSample
        { s with tickIndex := s.tickIndex + 1, now := s.now + TICK_INTERVAL_MS
               , lastMetricDeps := (s.tickIndex + 1, s.phase, s.networkEnabled) } := by
    rw [metricCheck_run _ hcond, hu]
    refine (mBody_run
      { s with tickIndex := s.tickIndex + 1, now := s.now + TICK_INTERVAL_MS
             , lastMetricDeps := (s.tickIndex + 1, s.phase, s.networkEnabled) }
      hp hn).trans ?_
    rw [if_neg hf]
  show stabilize (handle .tick s) = _
  unfold stabilize runEffectsOnce
  rw [step1]
  exact stabilize_tail_of_consistent _ rfl hc.2

/-- A live tick with the network up that reaches the anomaly threshold while
MONITORING: the anomaly fires and — because the phase change re-triggers the
effect — a second sample is appended in the same commit.  The full normal form
of the resulting state. -/
lemma applyEvent_tick_fire (s : State) (hc : depsConsistent s)
    (hr : s.simRunning = true) (hn : s.networkEnabled = true)
    (hM : s.phase = .MONITORING)
    (h3 : s.tickIndex + 1 = ANOMALY_TICK_INDEX) :
    applyEvent .tick s =
      appendSample
        { fireAnomaly (appendSample
            { s with tickIndex := s.tickIndex + 1, now := s.now + TICK_INTERVAL_MS
                   , lastMetricDeps := (s.tickIndex + 1, s.phase, s.networkEnabled) })
          with lastTimeoutPhase := .ANOMALY_DETECTED
             , decisionTimer := some 60000
             , lastMetricDeps :=
                 (s.tickIndex + 1, .ANOMALY_DETECTED, s.networkEnabled) } := by
  have hu := handle_tick_of_running s hr
  have hcond : metricDeps (handle .tick s) ≠ (handle .tick s).lastMetricDeps := by
    rw [hu]
    intro he
    exact Nat.succ_ne_self s.tickIndex
      (congrArg (fun q : MetricDeps => q.1) (he.trans hc.1))
  have step1 : metricCheck (handle .tick s) =
      fireAnomaly (appendSample
        { s with tickIndex := s.tickIndex + 1, now := s.now + TICK_INTERVAL_MS
               , lastMetricDeps := (s.tickIndex + 1, s.phase, s.networkEnabled) }) := by
    rw [metricCheck_run _ hcond, hu]
    refine (mBody_run
      { s with tickIndex := s.tickIndex + 1, now := s.now + TICK_INTERVAL_MS
             , lastMetricDeps := (s.tickIndex + 1, s.phase, s.networkEnabled) }
      (Or.inl hM) hn).trans ?_
    rw [if_pos ⟨h3, hM⟩]
  show stabilize (handle .tick s) = _
  unfold stabilize runEffectsOnce
  rw [step1]
  have step2 : timeoutCheck (fireAnomaly (appendSample
      { s with tickIndex := s.tickIndex + 1, now := s.now + TICK_INTERVAL_MS
             , lastMetricDeps := (s.tickIndex + 1, s.phase, s.networkEnabled) })) =
      { fireAnomaly (appendSample
          { s with tickIndex := s.tickIndex + 1, now := s.now + TICK_INTERVAL_MS
                 , lastMetricDeps := (s.tickIndex + 1, s.phase, s.networkEnabled) })
        with lastTimeoutPhase := .ANOMALY_DETECTED, decisionTimer := some 60000 } := by
    rw [timeoutCheck_run _ (by
      intro he
      exact (by decide : AppPhase.ANOMALY_DETECTED ≠ AppPhase.MONITORING)
        ((he.trans hc.2).trans hM))]
    exact tBody_AD _ rfl
  rw [step2]
  have step3 : metricCheck
      ({ fireAnomaly (appendSample
          { s with tickIndex := s.tickIndex + 1, now := s.now + TICK_INTERVAL_MS
                 , lastMetricDeps := (s.tickIndex + 1, s.phase, s.networkEnabled) })
        with lastTimeoutPhase := .ANOMALY_DETECTED, decisionTimer := some 60000 }) =
      appendSample
        { fireAnomaly (appendSample
            { s with tickIndex := s.tickIndex + 1, now := s.now + TICK_INTERVAL_MS
                   , lastMetricDeps := (s.tickIndex + 1, s.phase, s.networkEnabled) })
          with lastTimeoutPhase := .ANOMALY_DETECTED
             , decisionTimer := some 60000
             , lastMetricDeps :=
                 (s.tickIndex + 1, .ANOMALY_DETECTED, s.networkEnabled) } := by
    rw [metricCheck_run _ (by
      intro he
      exact (by decide : AppPhase.ANOMALY_DETECTED ≠ AppPhase.MONITORING)
        ((congrArg (fun q : MetricDeps => q.2.1) he).trans hM))]
    refine (mBody_run _ (Or.inr (by rfl)) (by exact hn)).trans ?_
    rw [if_neg (by
      rintro ⟨-, hx⟩
      exact (by decide : AppPhase.ANOMALY_DETECTED ≠ AppPhase.MONITORING) hx)]
    rfl
  rw [step3]
  exact timeoutCheck_id _ rfl

lemma mBody_not_fire_facts (s : State)
    (hf : ¬(s.tickIndex = ANOMALY_TICK_INDEX ∧ s.phase = .MONITORING)) :
    (metricEffectBody s).phase = s.phase ∧ (metricEffectBody s).logs = s.logs := by
  unfold metricEffectBody
  split
  all_goals
    first
      | exact ⟨rfl, rfl⟩
      | (rename_i hfire; exact absurd hfire hf)

lemma metricCheck_not_fire_facts (s : State)
    (hf : ¬(s.tickIndex = ANOMALY_TICK_INDEX ∧ s.phase = .MONITORING)) :
    (metricCheck s).phase = s.phase ∧ (metricCheck s).logs = s.logs := by
  unfold metricCheck
  split
  · exact mBody_not_fire_facts _ hf
  · exact ⟨rfl, rfl⟩

/-- As long as the anomaly branch cannot fire (tick away from the threshold or
phase not MONITORING), the render loop preserves phase, audit log, tick
counter, network flag and interval liveness — whether or not a sample is
appended. -/
lemma stabilize_not_fire_facts (u : State)
    (hf : ¬(u.tickIndex = ANOMALY_TICK_INDEX ∧ u.phase = .MONITORING)) :
    (stabilize u).phase = u.phase
    ∧ (stabilize u).logs = u.logs
    ∧ (stabilize u).tickIndex = u.tickIndex
    ∧ (stabilize u).networkEnabled = u.networkEnabled
    ∧ (stabilize u).simRunning = u.simRunning := by
  have h1 := metricCheck_not_fire_facts u hf
  have h1t : (metricCheck u).tickIndex = u.tickIndex := metricCheck_tickIndex u
  have h2p : (timeoutCheck (metricCheck u)).phase = u.phase :=
    (timeoutCheck_phase _).trans h1.1
  have h2l : (timeoutCheck (metricCheck u)).logs = u.logs :=
    (timeoutCheck_logs _).trans h1.2
  have h2t : (timeoutCheck (metricCheck u)).tickIndex = u.tickIndex :=
    (timeoutCheck_tickIndex _).trans h1t
  have hf2 : ¬((timeoutCheck (metricCheck u)).tickIndex = ANOMALY_TICK_INDEX ∧
      (timeoutCheck (metricCheck u)).phase = .MONITORING) := by
    rw [h2t, h2p]
    exact hf
  have h3 := metricCheck_not_fire_facts _ hf2
  unfold stabilize runEffectsOnce
  refine ⟨?_, ?_, ?_, ?_, ?_⟩
  · rw [timeoutCheck_phase, h3.1, h2p]
  · rw [timeoutCheck_logs, h3.2, h2l]
  · rw [timeoutCheck_tickIndex, metricCheck_tickIndex, h2t]
  · rw [timeoutCheck_networkEnabled, metricCheck_networkEnabled,
      timeoutCheck_networkEnabled, metricCheck_networkEnabled]
  · rw [timeoutCheck_simRunning, metricCheck_simRunning,
      timeoutCheck_simRunning, metricCheck_simRunning]

lemma anomalyFireCount_congr {x y : State} (h : x.logs = y.logs) :
    anomalyFireCount x = anomalyFireCount y := by
  unfold anomalyFireCount
  rw [h]

/-- A non-MONITORING phase makes the anomaly branch unable to fire. -/
lemma not_fire_of_phase {s : State} {p : AppPhase} (h : s.phase = p)
    (hne : p ≠ .MONITORING) :
    ¬(s.tickIndex = ANOMALY_TICK_INDEX ∧ s.phase = .MONITORING) := by
  rintro ⟨-, hx⟩
  exact hne (h.symm.trans hx)

/-! ### Audit-log effect of each handler on the anomaly counter -/

lemma count_addLog (s : State) (ev det : String) (ty : LogType)
    (hne : ev ≠ "Anomaly Detected") :
    anomalyFireCount (addLog s ev det ty) = anomalyFireCount s := by
  unfold anomalyFireCount addLog
  show List.countP (fun l => l.event == "Anomaly Detected")
      ({ id := s.randCtr, timestamp := s.now, event := ev
       , details := det, type := ty } :: s.logs)
    = List.countP (fun l => l.event == "Anomaly Detected") s.logs
  refine List.countP_cons_of_neg _ _ ?_
  intro hx
  simp at hx
  exact hne hx

lemma count_handle_startGuided (s : State) :
    anomalyFireCount (handle .startGuided s) = anomalyFireCount s := by
  show anomalyFireCount (handleStartGuided s) = anomalyFireCount s
  unfold handleStartGuided
  exact count_addLog _ _ _ _ (by decide)

lemma count_handle_shadowComplete (s : State) :
    anomalyFireCount (handle .shadowComplete s) = anomalyFireCount s := by
  show anomalyFireCount (fireShadowComplete s) = anomalyFireCount s
  unfold fireShadowComplete
  split
  · exact count_addLog _ _ _ _ (by decide)
  · rfl

lemma count_handle_startCanary (s : State) :
    anomalyFireCount (handle .startCanary s) = anomalyFireCount s := by
  show anomalyFireCount (handleStartCanary s) = anomalyFireCount s
  unfold handleStartCanary startSimulation
  exact count_addLog _ _ _ _ (by decide)

lemma count_handle_toggleNetwork (s : State) :
    anomalyFireCount (handle .toggleNetwork s) = anomalyFireCount s := by
  show anomalyFireCount (toggleNetwork s) = anomalyFireCount s
  unfold toggleNetwork
  split
  · exact count_addLog _ _ _ _ (by decide)
  · exact count_addLog _ _ _ _ (by decide)

lemma handle_shadowComplete_phase (s : State) :
    (handle .shadowComplete s).phase = s.phase := by
  show (fireShadowComplete s).phase = s.phase
  unfold fireShadowComplete
  split <;> rfl

lemma handle_shadowComplete_tickIndex (s : State) :
    (handle .shadowComplete s).tickIndex = s.tickIndex := by
  show (fireShadowComplete s).tickIndex = s.tickIndex
  unfold fireShadowComplete
  split <;> rfl

lemma handle_shadowComplete_networkEnabled (s : State) :
    (handle .shadowComplete s).networkEnabled = s.networkEnabled := by
  show (fireShadowComplete s).networkEnabled = s.networkEnabled
  unfold fireShadowComplete
  split <;> rfl

lemma handle_shadowComplete_simRunning (s : State) :
    (handle .shadowComplete s).simRunning = s.simRunning := by
  show (fireShadowComplete s).simRunning = s.simRunning
  unfold fireShadowComplete
  split <;> rfl

lemma handle_toggleNetwork_phase (s : State) :
    (handle .toggleNetwork s).phase = s.phase := by
  show (toggleNetwork s).phase = s.phase
  unfold toggleNetwork
  split <;> rfl

lemma handle_toggleNetwork_tickIndex (s : State) :
    (handle .toggleNetwork s).tickIndex = s.tickIndex := by
  show (toggleNetwork s).tickIndex = s.tickIndex
  unfold toggleNetwork
  split <;> rfl

lemma handle_toggleNetwork_networkEnabled (s : State) :
    (handle .toggleNetwork s).networkEnabled = !s.networkEnabled := by
  show (toggleNetwork s).networkEnabled = !s.networkEnabled
  unfold toggleNetwork
  split <;> rfl

lemma handle_toggleNetwork_simRunning (s : State) :
    (handle .toggleNetwork s).simRunning = s.simRunning := by
  show (toggleNetwork s).simRunning = s.simRunning
  unfold toggleNetwork
  split <;> rfl

lemma handle_startCanary_phase (s : State) :
    (handle .startCanary s).phase = .MONITORING := rfl

lemma handle_startCanary_tickIndex (s : State) :
    (handle .startCanary s).tickIndex = 0 := rfl

lemma handle_startCanary_networkEnabled (s : State) :
    (handle .startCanary s).networkEnabled = s.networkEnabled := rfl

lemma handle_startCanary_simRunning (s : State) :
    (handle .startCanary s).simRunning = true := rfl

lemma handle_startGuided_phase (s : State) :
    (handle .startGuided s).phase = .SHADOW_TEST := rfl

lemma handle_startGuided_tickIndex (s : State) :
    (handle .startGuided s).tickIndex = s.tickIndex := rfl

lemma handle_startGuided_networkEnabled (s : State) :
    (handle .startGuided s).networkEnabled = s.networkEnabled := rfl

lemma handle_startGuided_simRunning (s : State) :
    (handle .startGuided s).simRunning = s.simRunning := rfl

lemma handle_continueToSetup_phase (s : State) :
    (handle .continueToSetup s).phase = .CANARY_SETUP := rfl

lemma handle_continueToSetup_networkEnabled (s : State) :
    (handle .continueToSetup s).networkEnabled = s.networkEnabled := rfl

lemma count_handle_continueToSetup (s : State) :
    anomalyFireCount (handle .continueToSetup s) = anomalyFireCount s := rfl

/-- Facts after one step whose handler leaves the anomaly branch unable to
fire. -/
lemma applyEvent_not_fire_facts (e : Event) (s : State)
    (hf : ¬((handle e s).tickIndex = ANOMALY_TICK_INDEX ∧
        (handle e s).phase = .MONITORING)) :
    (applyEvent e s).phase = (handle e s).phase
    ∧ anomalyFireCount (applyEvent e s) = anomalyFireCount (handle e s)
    ∧ (applyEvent e s).tickIndex = (handle e s).tickIndex
    ∧ (applyEvent e s).networkEnabled = (handle e s).networkEnabled
    ∧ (applyEvent e s).simRunning = (handle e s).simRunning := by
  have h := stabilize_not_fire_facts (handle e s) hf
  exact ⟨h.1, anomalyFireCount_congr h.2.1, h.2.2.1, h.2.2.2.1, h.2.2.2.2⟩

/-- The state after the guided sequence: MONITORING at tick 0, network up,
interval live, quiescent, no anomaly fired yet. -/
lemma guided_base (rand : Nat → Rat) (t0 : Int) :
    (runEvents guidedEvents (initState rand t0)).tickIndex = 0
    ∧ (runEvents guidedEvents (initState rand t0)).networkEnabled = true
    ∧ (runEvents guidedEvents (initState rand t0)).simRunning = true
    ∧ depsConsistent (runEvents guidedEvents (initState rand t0))
    ∧ (runEvents guidedEvents (initState rand t0)).phase = .MONITORING
    ∧ anomalyFireCount (runEvents guidedEvents (initState rand t0)) = 0 := by
  have hrw : runEvents guidedEvents (initState rand t0)
      = applyEvent .startCanary (applyEvent .continueToSetup
          (applyEvent .shadowComplete (applyEvent .startGuided (initState rand t0)))) := by
    unfold runEvents guidedEvents
    rw [List.foldl_cons, List.foldl_cons, List.foldl_cons, List.foldl_cons,
      List.foldl_nil]
  -- step 1: startGuided (phase SHADOW_TEST, nothing else relevant changes)
  have s1 := applyEvent_not_fire_facts .startGuided (initState rand t0)
    (not_fire_of_phase (handle_startGuided_phase _) (by decide))
  have s1p : (applyEvent .startGuided (initState rand t0)).phase = .SHADOW_TEST :=
    s1.1.trans (handle_startGuided_phase _)
  have s1n : (applyEvent .startGuided (initState rand t0)).networkEnabled = true :=
    s1.2.2.2.1.trans ((handle_startGuided_networkEnabled _).trans rfl)
  have s1cnt : anomalyFireCount (applyEvent .startGuided (initState rand t0)) = 0 :=
    s1.2.1.trans ((count_handle_startGuided _).trans rfl)
  -- step 2: shadowComplete (phase unchanged)
  have s2p0 : (handle .shadowComplete
      (applyEvent .startGuided (initState rand t0))).phase = .SHADOW_TEST :=
    (handle_shadowComplete_phase _).trans s1p
  have s2 := applyEvent_not_fire_facts .shadowComplete
    (applyEvent .startGuided (initState rand t0))
    (not_fire_of_phase s2p0 (by decide))
  have s2n : (applyEvent .shadowComplete
      (applyEvent .startGuided (initState rand t0))).networkEnabled = true :=
    s2.2.2.2.1.trans ((handle_shadowComplete_networkEnabled _).trans s1n)
  have s2cnt : anomalyFireCount (applyEvent .shadowComplete
      (applyEvent .startGuided (initState rand t0))) = 0 :=
    s2.2.1.trans ((count_handle_shadowComplete _).trans s1cnt)
  -- step 3: continueToSetup (phase CANARY_SETUP)
  have s3 := applyEvent_not_fire_facts .continueToSetup
    (applyEvent .shadowComplete (applyEvent .startGuided (initState rand t0)))
    (not_fire_of_phase (handle_continueToSetup_phase _) (by decide))
  have s3n : (applyEvent .continueToSetup (applyEvent .shadowComplete
      (applyEvent .startGuided (initState rand t0)))).networkEnabled = true :=
    s3.2.2.2.1.trans ((handle_continueToSetup_networkEnabled _).trans s2n)
  have s3cnt : anomalyFireCount (applyEvent .continueToSetup
      (applyEvent .shadowComplete (applyEvent .startGuided (initState rand t0)))) = 0 :=
    s3.2.1.trans ((count_handle_continueToSetup _).trans s2cnt)
  -- step 4: startCanary (phase MONITORING, tick reset to 0, interval live)
  have s4 := applyEvent_not_fire_facts .startCanary
    (applyEvent .continueToSetup (applyEvent .shadowComplete
      (applyEvent .startGuided (initState rand t0))))
    (by
      rintro ⟨hx, -⟩
      rw [handle_startCanary_tickIndex] at hx
      exact absurd hx (by decide))
  rw [hrw]
  refine ⟨s4.2.2.1.trans (handle_startCanary_tickIndex _),
    s4.2.2.2.1.trans ((handle_startCanary_networkEnabled _).trans s3n),
    s4.2.2.2.2.trans (handle_startCanary_simRunning _),
    applyEvent_consistent _ _,
    s4.1.trans (handle_startCanary_phase _),
    s4.2.1.trans ((count_handle_startCanary _).trans s3cnt)⟩

lemma runEvents_append (xs ys : List Event) (s : State) :
    runEvents (xs ++ ys) s = runEvents ys (runEvents xs s) := by
  unfold runEvents
  rw [List.foldl_append]

lemma sessionAfter_succ (rand : Nat → Rat) (t0 : Int) (n : Nat) :
    sessionAfter rand t0 (n + 1) = applyEvent .tick (sessionAfter rand t0 n) := by
  unfold sessionAfter
  rw [List.replicate_succ', ← List.append_assoc, runEvents_append]
  rfl

/-- Invariant of the canonical Monitoring session (guided start, network up,
`n` interval ticks): `tickIndex` counts the ticks, the anomaly fires exactly
at the tick that reaches the threshold 3, moving the phase to
ANOMALY_DETECTED, and never again. -/
lemma session_inv (rand : Nat → Rat) (t0 : Int) :
    ∀ n : Nat,
      (sessionAfter rand t0 n).tickIndex = n
      ∧ (sessionAfter rand t0 n).networkEnabled = true
      ∧ (sessionAfter rand t0 n).simRunning = true
      ∧ depsConsistent (sessionAfter rand t0 n)
      ∧ (sessionAfter rand t0 n).phase
          = (if 3 ≤ n then AppPhase.ANOMALY_DETECTED else .MONITORING)
      ∧ anomalyFireCount (sessionAfter rand t0 n) = (if 3 ≤ n then 1 else 0) := by
  intro n
  induction n with
  | zero =>
      have hz : sessionAfter rand t0 0 = runEvents guidedEvents (initState rand t0) := by
        unfold sessionAfter
        rw [show List.replicate 0 (Event.tick) = ([] : List Event) from rfl,
          List.append_nil]
      rw [hz]
      obtain ⟨h1, h2, h3, h4, h5, h6⟩ := guided_base rand t0
      exact ⟨h1, h2, h3, h4, h5.trans (by rw [if_neg (by omega)]), h6.trans (by rw [if_neg (by omega)])⟩
  | succ n ih =>
      obtain ⟨iht, ihn, ihs, ihc, ihp, ihcnt⟩ := ih
      rw [sessionAfter_succ]
      generalize hS : sessionAfter rand t0 n = S at iht ihn ihs ihc ihp ihcnt ⊢
      by_cases h3 : 3 ≤ n
      · -- past the threshold: phase is already ANOMALY_DETECTED, no fire
        have hphase : S.phase = .ANOMALY_DETECTED := by
          rw [ihp, if_pos h3]
        have hf : ¬(S.tickIndex + 1 = ANOMALY_TICK_INDEX ∧ S.phase = .MONITORING) := by
          rintro ⟨-, hx⟩
          rw [hphase] at hx
          exact absurd hx (by decide)
        have key := applyEvent_tick_nofire S ihc ihs ihn (Or.inr hphase) hf
        rw [key]
        refine ⟨?_, ihn, ihs, ⟨rfl, ihc.2⟩, ?_, ?_⟩
        · show S.tickIndex + 1 = n + 1
          rw [iht]
        · show S.phase = _
          rw [hphase, if_pos (by omega)]
        · show anomalyFireCount S = _
          rw [ihcnt, if_pos h3, if_pos (by omega)]
      · -- not yet past the threshold: phase is MONITORING
        have hphase : S.phase = .MONITORING := by
          rw [ihp, if_neg h3]
        by_cases heq : n + 1 = 3
        · -- the threshold tick: the anomaly fires
          have h3' : S.tickIndex + 1 = ANOMALY_TICK_INDEX := by
            rw [iht]
            exact heq
          have key := applyEvent_tick_fire S ihc ihs ihn hphase h3'
          rw [key]
          refine ⟨?_, ihn, ihs, ⟨rfl, rfl⟩, ?_, ?_⟩
          · show S.tickIndex + 1 = n + 1
            rw [iht]
          · show AppPhase.ANOMALY_DETECTED = _
            rw [if_pos (by omega)]
          · show List.countP _ (_ :: S.logs) = _
            rw [if_pos (by omega)]
            refine (List.countP_cons_of_pos _ _ ?_).trans ?_
            · rfl
            · show anomalyFireCount S + 1 = 1
              rw [ihcnt, if_neg h3]
        · -- before the threshold: no fire
          have hf : ¬(S.tickIndex + 1 = ANOMALY_TICK_INDEX ∧ S.phase = .MONITORING) := by
            rintro ⟨hx, -⟩
            rw [iht] at hx
            exact heq hx
          have key := applyEvent_tick_nofire S ihc ihs ihn (Or.inl hphase) hf
          rw [key]
          refine ⟨?_, ihn, ihs, ⟨rfl, ihc.2⟩, ?_, ?_⟩
          · show S.tickIndex + 1 = n + 1
            rw [iht]
          · show S.phase = _
            rw [hphase, if_neg (by omega)]
          · show anomalyFireCount S = _
            rw [ihcnt, if_neg h3, if_neg (by omega)]

/-! ### Claim C2 -/

/-- C2, counterexample.  The claim states that in EVERY Monitoring session the
anomaly evaluation fires exactly once, at the tick where `tickIndex` equals 3.
If the network is disabled before the threshold tick, the tick counter keeps
advancing while the network-gated effect is skipped: the session sails past
tick 3 (here to tick 7, with the network re-enabled at tick 5) with zero
firings and the phase still MONITORING. -/
theorem c2_counterexample :
    (runEvents (guidedEvents ++ [.toggleNetwork] ++ List.replicate 5 .tick
        ++ [.toggleNetwork] ++ List.replicate 2 .tick) (initState rzero 0)).tickIndex = 7
    ∧ (runEvents (guidedEvents ++ [.toggleNetwork] ++ List.replicate 5 .tick
        ++ [.toggleNetwork] ++ List.replicate 2 .tick) (initState rzero 0)).phase
      = .MONITORING
    ∧ anomalyFireCount (runEvents (guidedEvents ++ [.toggleNetwork]
        ++ List.replicate 5 .tick ++ [.toggleNetwork] ++ List.replicate 2 .tick)
        (initState rzero 0)) = 0 := by
  exact ⟨by decide, by decide, by decide⟩

/-- C2, amended: in a Monitoring session in which the network stays enabled,
the anomaly evaluation fires exactly once, precisely at the tick where
`tickIndex` reaches the fixed threshold 3 — never earlier and never again
later — and on firing the phase moves from MONITORING to ANOMALY_DETECTED
(with the network disabled at the threshold tick it does not fire at all, see
the counterexample). -/
theorem c2_amended (rand : Nat → Rat) (t0 : Int) (n : Nat) :
    anomalyFireCount (sessionAfter rand t0 n) = (if 3 ≤ n then 1 else 0)
    ∧ (sessionAfter rand t0 n).phase
        = (if 3 ≤ n then AppPhase.ANOMALY_DETECTED else .MONITORING)
    ∧ (sessionAfter rand t0 n).tickIndex = n := by
  obtain ⟨h1, -, -, -, h2, h3⟩ := session_inv rand t0 n
  exact ⟨h3, h2, h1⟩

/-! ### Claim C3 -/

/-- C3: after `confirmRollback()` from the rollback-confirmation state (phase
ANOMALY_DETECTED with the confirmation modal open), the phase is ROLLED_BACK,
the metric sampler's interval is cancelled so that no later tick changes the
state at all (in particular no further sample is produced), the modal is
closed, the timeout flag is cleared, and the newest audit-log entry is the
"Rollback Executed" record carrying the operator-adjusted confidence. -/
theorem c3_confirm_rollback (s : State) (hc : depsConsistent s)
    (hAD : s.phase = .ANOMALY_DETECTED) (hm : s.showRollbackModal = true) :
    (applyEvent .confirmRollback s).phase = .ROLLED_BACK
    ∧ (applyEvent .confirmRollback s).simRunning = false
    ∧ (applyEvent .confirmRollback s).showRollbackModal = false
    ∧ (applyEvent .confirmRollback s).recommendationTimeout = false
    ∧ (applyEvent .confirmRollback s).logs.head?
        = some (rollbackExecutedEntry s.randCtr s.now s.agentConfidence)
    ∧ ∀ k : Nat,
        runEvents (List.replicate k .tick) (applyEvent .confirmRollback s)
          = applyEvent .confirmRollback s := by
  have hup : (handle .confirmRollback s).phase = .ROLLED_BACK := rfl
  have hg : ((handle .confirmRollback s).phase ≠ .MONITORING ∧
      (handle .confirmRollback s).phase ≠ .ANOMALY_DETECTED) ∨
      (handle .confirmRollback s).networkEnabled = false := by
    rw [hup]
    exact Or.inl ⟨by decide, by decide⟩
  have hfr := stabilize_frozen_of_guard (handle .confirmRollback s) hg
  have hphase : (applyEvent .confirmRollback s).phase = .ROLLED_BACK := by
    unfold applyEvent
    rw [hfr.2.2, hup]
  have hsim : (applyEvent .confirmRollback s).simRunning = false := by
    unfold applyEvent
    rw [stabilize_simRunning]
    rfl
  refine ⟨hphase, hsim, ?_, ?_, ?_, ?_⟩
  · unfold applyEvent
    rw [stabilize_showRollbackModal]
    rfl
  · unfold applyEvent
    exact stabilize_recTimeout_false _ rfl
  · unfold applyEvent
    rw [hfr.2.1]
    rfl
  · exact fun k => runEvents_ticks_stopped _ (applyEvent_consistent _ s) hsim k

/-- C3, witness: the theorem applied at the state reached by the guided
sequence, three ticks (anomaly fired) and a rollback request. -/
theorem c3_confirm_rollback_witness :
    (applyEvent .confirmRollback (runEvents
        (guidedEvents ++ [.tick, .tick, .tick, .rollbackClick])
        (initState rzero 0))).phase = .ROLLED_BACK
    ∧ (applyEvent .confirmRollback (runEvents
        (guidedEvents ++ [.tick, .tick, .tick, .rollbackClick])
        (initState rzero 0))).simRunning = false
    ∧ (applyEvent .confirmRollback (runEvents
        (guidedEvents ++ [.tick, .tick, .tick, .rollbackClick])
        (initState rzero 0))).logs.head?
      = some (rollbackExecutedEntry
          (runEvents (guidedEvents ++ [.tick, .tick, .tick, .rollbackClick])
            (initState rzero 0)).randCtr
          (runEvents (guidedEvents ++ [.tick, .tick, .tick, .rollbackClick])
            (initState rzero 0)).now
          (runEvents (guidedEvents ++ [.tick, .tick, .tick, .rollbackClick])
            (initState rzero 0)).agentConfidence)
    ∧ runEvents (List.replicate 5 .tick)
        (applyEvent .confirmRollback (runEvents
          (guidedEvents ++ [.tick, .tick, .tick, .rollbackClick])
          (initState rzero 0)))
      = applyEvent .confirmRollback (runEvents
          (guidedEvents ++ [.tick, .tick, .tick, .rollbackClick])
          (initState rzero 0)) := by
  have h := c3_confirm_rollback
    (runEvents (guidedEvents ++ [.tick, .tick, .tick, .rollbackClick]) (initState rzero 0))
    (by decide) (by decide) (by decide)
  exact ⟨h.1, h.2.1, h.2.2.2.2.1, h.2.2.2.2.2 5⟩

/-! ### Claim C5 -/

/-- C5, counterexample.  The claim says `replay()` from ROLLED_BACK transitions
the phase to MONITORING.  `replayTimeline` never calls `setPhase`: after the
full scenario ending in a confirmed rollback, replay resets the history to the
10-sample warm-up and the tick counter to 0 and preserves all audit-log
entries — but the phase remains ROLLED_BACK. -/
theorem c5_counterexample :
    (runEvents (guidedEvents ++
        [.tick, .tick, .tick, .rollbackClick, .confirmRollback, .replay])
        (initState rzero 0)).phase = .ROLLED_BACK
    ∧ (runEvents (guidedEvents ++
        [.tick, .tick, .tick, .rollbackClick, .confirmRollback, .replay])
        (initState rzero 0)).phase ≠ .MONITORING
    ∧ (runEvents (guidedEvents ++
        [.tick, .tick, .tick, .rollbackClick, .confirmRollback, .replay])
        (initState rzero 0)).metrics.length = 10
    ∧ (runEvents (guidedEvents ++
        [.tick, .tick, .tick, .rollbackClick, .confirmRollback, .replay])
        (initState rzero 0)).tickIndex = 0
    ∧ (runEvents (guidedEvents ++
        [.tick, .tick, .tick, .rollbackClick, .confirmRollback, .replay])
        (initState rzero 0)).logs.map (fun l => l.event)
      = ["Replay", "Rollback Executed", "Anomaly Detected", "Canary Rollout Started",
         "Shadow Test Completed", "Shadow Test Initiated"] := by
  exact ⟨by decide, by decide, by decide, by decide, by decide⟩

/-- C5, amended: invoking replay() from ROLLED_BACK resets the metric history
to the 10-sample synthetic warm-up window, resets tickIndex to 0, restarts the
sampler interval, and leaves all previously recorded audit-log entries in
place (prepending a "Replay" entry) — but it does NOT transition the phase to
MONITORING: the phase remains ROLLED_BACK, and since the sampling effect only
runs in MONITORING/ANOMALY_DETECTED, the restarted interval produces no
further samples. -/
theorem c5_amended (s : State) (hc : depsConsistent s)
    (hRB : s.phase = .ROLLED_BACK) :
    (applyEvent .replay s).phase = .ROLLED_BACK
    ∧ (applyEvent .replay s).tickIndex = 0
    ∧ (applyEvent .replay s).metrics = warmupPoints s.rand s.randCtr s.now
    ∧ (applyEvent .replay s).metrics.length = 10
    ∧ (applyEvent .replay s).simRunning = true
    ∧ (applyEvent .replay s).logs =
        { id := s.randCtr + 30, timestamp := s.now + 10, event := "Replay"
        , details := "Replaying last session data.", type := LogType.info } :: s.logs
    ∧ ∀ k : Nat,
        (runEvents (List.replicate k .tick) (applyEvent .replay s)).metrics
          = (applyEvent .replay s).metrics := by
  have hup : (handle .replay s).phase = s.phase := rfl
  have hg : ((handle .replay s).phase ≠ .MONITORING ∧
      (handle .replay s).phase ≠ .ANOMALY_DETECTED) ∨
      (handle .replay s).networkEnabled = false := by
    rw [hup, hRB]
    exact Or.inl ⟨by decide, by decide⟩
  have hfr := stabilize_frozen_of_guard (handle .replay s) hg
  have hphase : (applyEvent .replay s).phase = .ROLLED_BACK := by
    unfold applyEvent
    rw [hfr.2.2, hup, hRB]
  have hmet : (applyEvent .replay s).metrics = warmupPoints s.rand s.randCtr s.now := by
    unfold applyEvent
    rw [hfr.1]
    rfl
  refine ⟨hphase, ?_, hmet, ?_, ?_, ?_, ?_⟩
  · unfold applyEvent
    rw [stabilize_tickIndex]
    rfl
  · rw [hmet, warmupPoints_length]
  · unfold applyEvent
    rw [stabilize_simRunning]
    rfl
  · unfold applyEvent
    rw [hfr.2.1]
    rfl
  · exact fun k => (runEvents_ticks_frozen_RB k (applyEvent .replay s) hphase).1

/-- C5, witness: the amended theorem applied right after a confirmed
rollback. -/
theorem c5_amended_witness :
    (applyEvent .replay (runEvents
        (guidedEvents ++ [.tick, .tick, .tick, .rollbackClick, .confirmRollback])
        (initState rzero 0))).phase = .ROLLED_BACK
    ∧ (applyEvent .replay (runEvents
        (guidedEvents ++ [.tick, .tick, .tick, .rollbackClick, .confirmRollback])
        (initState rzero 0))).tickIndex = 0
    ∧ (applyEvent .replay (runEvents
        (guidedEvents ++ [.tick, .tick, .tick, .rollbackClick, .confirmRollback])
        (initState rzero 0))).metrics.length = 10
    ∧ (runEvents (List.replicate 5 .tick) (applyEvent .replay (runEvents
        (guidedEvents ++ [.tick, .tick, .tick, .rollbackClick, .confirmRollback])
        (initState rzero 0)))).metrics
      = (applyEvent .replay (runEvents
        (guidedEvents ++ [.tick, .tick, .tick, .rollbackClick, .confirmRollback])
        (initState rzero 0))).metrics := by
  have h := c5_amended
    (runEvents (guidedEvents ++ [.tick, .tick, .tick, .rollbackClick, .confirmRollback])
      (initState rzero 0))
    (by decide) (by decide)
  exact ⟨h.1, h.2.1, h.2.2.2.1, h.2.2.2.2.2.2 5⟩

/-! ### Claim C7 -/

/-- No handler writes the timeout-effect bookkeeping: only the effect itself
does. -/
lemma handle_lastTimeoutPhase (e : Event) (s : State) :
    (handle e s).lastTimeoutPhase = s.lastTimeoutPhase := by
  cases e
  case shadowComplete =>
    show (fireShadowComplete s).lastTimeoutPhase = s.lastTimeoutPhase
    unfold fireShadowComplete
    split <;> rfl
  case toggleNetwork =>
    show (toggleNetwork s).lastTimeoutPhase = s.lastTimeoutPhase
    unfold toggleNetwork
    split <;> rfl
  case tick =>
    show (if s.simRunning then
        ({ s with tickIndex := s.tickIndex + 1, now := s.now + TICK_INTERVAL_MS } : State)
      else s).lastTimeoutPhase = s.lastTimeoutPhase
    split <;> rfl
  case decisionTimeoutFire =>
    show (if s.decisionTimer.isSome then
        ({ s with recommendationTimeout := true, decisionTimer := none } : State)
      else s).lastTimeoutPhase = s.lastTimeoutPhase
    split <;> rfl
  all_goals rfl

lemma metricCheck_lastTimeoutPhase (s : State) :
    (metricCheck s).lastTimeoutPhase = s.lastTimeoutPhase := by
  unfold metricCheck
  split
  · rw [mBody_lastTimeoutPhase]
  · rfl

/-- Firing of an armed decision timeout on a quiescent state: the flag is
raised and the timer disarmed, nothing else changes. -/
lemma applyEvent_timeoutFire (s : State) (hc : depsConsistent s)
    (ht : s.decisionTimer.isSome = true) :
    applyEvent .decisionTimeoutFire s
      = { s with recommendationTimeout := true, decisionTimer := none } := by
  have hh : handle .decisionTimeoutFire s
      = { s with recommendationTimeout := true, decisionTimer := none } := by
    show (if s.decisionTimer.isSome then
        ({ s with recommendationTimeout := true, decisionTimer := none } : State)
      else s) = _
    rw [if_pos ht]
  unfold applyEvent
  rw [hh]
  exact stabilize_id _ ⟨hc.1, hc.2⟩

/-- Whenever a step out of ANOMALY_DETECTED lands in a different phase, the
timeout effect's cleanup-and-rerun clears the timeout flag and disarms the
60 s timer. -/
lemma applyEvent_leave_AD_clears (e : Event) (s : State) (hc : depsConsistent s)
    (hAD : s.phase = .ANOMALY_DETECTED)
    (hne : (applyEvent e s).phase ≠ .ANOMALY_DETECTED) :
    (applyEvent e s).recommendationTimeout = false
    ∧ (applyEvent e s).decisionTimer = none := by
  have hltp : (handle e s).lastTimeoutPhase = .ANOMALY_DETECTED :=
    (handle_lastTimeoutPhase e s).trans (hc.2.trans hAD)
  have hmltp : (metricCheck (handle e s)).lastTimeoutPhase = .ANOMALY_DETECTED :=
    (metricCheck_lastTimeoutPhase _).trans hltp
  by_cases hm : (metricCheck (handle e s)).phase = .ANOMALY_DETECTED
  · exfalso
    have e1 : timeoutCheck (metricCheck (handle e s)) = metricCheck (handle e s) :=
      timeoutCheck_id _ (hmltp.trans hm.symm)
    have hphase : (applyEvent e s).phase = .ANOMALY_DETECTED := by
      show (stabilize (handle e s)).phase = _
      unfold stabilize runEffectsOnce
      rw [e1, timeoutCheck_phase,
        metricCheck_phase_of_ne_M _ (by rw [hm]; decide)]
      exact hm
    exact hne hphase
  · have hmm : (metricCheck (handle e s)).lastMetricDeps
        = metricDeps (metricCheck (handle e s)) := by
      rcases metricCheck_metric_consistent (handle e s) with h | h
      · exact h
      · exact absurd h.1 hm
    have hrun : timeoutCheck (metricCheck (handle e s)) =
        timeoutEffectBody { metricCheck (handle e s) with
          lastTimeoutPhase := (metricCheck (handle e s)).phase } :=
      timeoutCheck_run _ (by rw [hmltp]; exact hm)
    have htb : timeoutEffectBody { metricCheck (handle e s) with
          lastTimeoutPhase := (metricCheck (handle e s)).phase } =
        { metricCheck (handle e s) with
          lastTimeoutPhase := (metricCheck (handle e s)).phase
        , recommendationTimeout := false, decisionTimer := none } := by
      unfold timeoutEffectBody
      rw [if_neg (by exact hm)]
    have h4 : metricCheck ({ metricCheck (handle e s) with
          lastTimeoutPhase := (metricCheck (handle e s)).phase
        , recommendationTimeout := false, decisionTimer := none }) =
        { metricCheck (handle e s) with
          lastTimeoutPhase := (metricCheck (handle e s)).phase
        , recommendationTimeout := false, decisionTimer := none } :=
      metricCheck_id _ (by exact hmm)
    have h5 : timeoutCheck ({ metricCheck (handle e s) with
          lastTimeoutPhase := (metricCheck (handle e s)).phase
        , recommendationTimeout := false, decisionTimer := none }) =
        { metricCheck (handle e s) with
          lastTimeoutPhase := (metricCheck (handle e s)).phase
        , recommendationTimeout := false, decisionTimer := none } :=
      timeoutCheck_id _ (by exact rfl)
    have hfinal : applyEvent e s =
        { metricCheck (handle e s) with
          lastTimeoutPhase := (metricCheck (handle e s)).phase
        , recommendationTimeout := false, decisionTimer := none } := by
      show stabilize (handle e s) = _
      unfold stabilize runEffectsOnce
      rw [hrun, htb, h4, h5]
    rw [hfinal]
    exact ⟨rfl, rfl⟩

/-- C7: on the anomaly-confirmed tick out of MONITORING, agent confidence is
reset to 83, exactly the three advisory messages are scheduled in order (alert
summary at 0.5 s, quantified delta detail at 1.5 s, then the recommendation at
3 s carrying confidence 83 and risk High), "Anomaly Detected" becomes the
newest audit-log entry, and the 60 s decision timeout is armed; its expiry
raises `recommendationTimeout`; the timeout state is cleared by a decision
(continue rollout or confirmed rollback) and whenever a step leaves
ANOMALY_DETECTED. -/
theorem c7_anomaly_transition (s : State) (hc : depsConsistent s)
    (hr : s.simRunning = true) (hn : s.networkEnabled = true)
    (hM : s.phase = .MONITORING) (h3 : s.tickIndex + 1 = ANOMALY_TICK_INDEX) :
    (applyEvent .tick s).phase = .ANOMALY_DETECTED
    ∧ (applyEvent .tick s).agentConfidence = 83
    ∧ (applyEvent .tick s).pendingMessages
        = s.pendingMessages ++ [anomalyMsg1, anomalyMsg2, anomalyMsg3]
    ∧ ((applyEvent .tick s).logs.head?.map (fun l => l.event))
        = some "Anomaly Detected"
    ∧ (applyEvent .tick s).decisionTimer = some 60000
    ∧ (applyEvent .decisionTimeoutFire (applyEvent .tick s)).recommendationTimeout
        = true
    ∧ (∀ s2 : State, (applyEvent .continueRollout s2).recommendationTimeout = false)
    ∧ (∀ s2 : State, (applyEvent .confirmRollback s2).recommendationTimeout = false)
    ∧ (∀ (e : Event) (s2 : State), depsConsistent s2 →
        s2.phase = .ANOMALY_DETECTED →
        (applyEvent e s2).phase ≠ .ANOMALY_DETECTED →
        (applyEvent e s2).recommendationTimeout = false
        ∧ (applyEvent e s2).decisionTimer = none) := by
  have key := applyEvent_tick_fire s hc hr hn hM h3
  have h5 : (applyEvent .tick s).decisionTimer = some 60000 := by
    rw [key]
    rfl
  refine ⟨?_, ?_, ?_, ?_, h5, ?_, ?_, ?_, applyEvent_leave_AD_clears⟩
  · rw [key]
    rfl
  · rw [key]
    rfl
  · rw [key]
    rfl
  · rw [key]
    rfl
  · have ht : (applyEvent .tick s).decisionTimer.isSome = true := by
      rw [h5]
      rfl
    rw [applyEvent_timeoutFire _ (applyEvent_consistent .tick s) ht]
  · intro s2
    unfold applyEvent
    exact stabilize_recTimeout_false _ rfl
  · intro s2
    unfold applyEvent
    exact stabilize_recTimeout_false _ rfl

/-- C7, witness: the anomaly-confirmed transition at the state reached by the
guided sequence and two ticks. -/
theorem c7_anomaly_transition_witness :
    (applyEvent .tick (runEvents (guidedEvents ++ [.tick, .tick])
        (initState rzero 0))).phase = .ANOMALY_DETECTED
    ∧ (applyEvent .tick (runEvents (guidedEvents ++ [.tick, .tick])
        (initState rzero 0))).agentConfidence = 83
    ∧ (applyEvent .tick (runEvents (guidedEvents ++ [.tick, .tick])
        (initState rzero 0))).decisionTimer = some 60000
    ∧ (applyEvent .decisionTimeoutFire (applyEvent .tick (runEvents
        (guidedEvents ++ [.tick, .tick])
        (initState rzero 0)))).recommendationTimeout = true := by
  have h := c7_anomaly_transition
    (runEvents (guidedEvents ++ [.tick, .tick]) (initState rzero 0))
    (by decide) (by decide) (by decide) (by decide) (by decide)
  exact ⟨h.1, h.2.1, h.2.2.2.2.1, h.2.2.2.2.2.1⟩

/-! ### Claim C10 -/

lemma handle_tick_logs (t : State) : (handle .tick t).logs = t.logs := by
  show (if t.simRunning then
      ({ t with tickIndex := t.tickIndex + 1, now := t.now + TICK_INTERVAL_MS } : State)
    else t).logs = t.logs
  split <;> rfl

lemma handle_tick_tickIndex_ge (t : State) :
    t.tickIndex ≤ (handle .tick t).tickIndex := by
  show t.tickIndex ≤ (if t.simRunning then
      ({ t with tickIndex := t.tickIndex + 1, now := t.now + TICK_INTERVAL_MS } : State)
    else t).tickIndex
  split
  · exact Nat.le_succ t.tickIndex
  · exact Nat.le_refl t.tickIndex

/-- One session-remainder step (an interval tick or a network toggle) past the
threshold: MONITORING persists, the tick counter stays past the threshold, and
no anomaly fires — the strict-equality check can no longer be satisfied. -/
lemma c10_step (e : Event) (he : e = .tick ∨ e = .toggleNetwork) (s : State)
    (hp : s.phase = .MONITORING) (ht : ANOMALY_TICK_INDEX < s.tickIndex) :
    (applyEvent e s).phase = .MONITORING
    ∧ ANOMALY_TICK_INDEX < (applyEvent e s).tickIndex
    ∧ anomalyFireCount (applyEvent e s) = anomalyFireCount s := by
  rcases he with rfl | rfl
  · have hhp : (handle .tick s).phase = .MONITORING := (handle_tick_phase s).trans hp
    have hht : ANOMALY_TICK_INDEX < (handle .tick s).tickIndex :=
      lt_of_lt_of_le ht (handle_tick_tickIndex_ge s)
    have hf : ¬((handle .tick s).tickIndex = ANOMALY_TICK_INDEX ∧
        (handle .tick s).phase = .MONITORING) := by
      rintro ⟨hx, -⟩
      rw [hx] at hht
      exact lt_irrefl _ hht
    have h := applyEvent_not_fire_facts .tick s hf
    refine ⟨h.1.trans hhp, ?_, h.2.1.trans (anomalyFireCount_congr (handle_tick_logs s))⟩
    rw [h.2.2.1]
    exact hht
  · have hhp : (handle .toggleNetwork s).phase = .MONITORING :=
      (handle_toggleNetwork_phase s).trans hp
    have hht : ANOMALY_TICK_INDEX < (handle .toggleNetwork s).tickIndex := by
      rw [handle_toggleNetwork_tickIndex]
      exact ht
    have hf : ¬((handle .toggleNetwork s).tickIndex = ANOMALY_TICK_INDEX ∧
        (handle .toggleNetwork s).phase = .MONITORING) := by
      rintro ⟨hx, -⟩
      rw [hx] at hht
      exact lt_irrefl _ hht
    have h := applyEvent_not_fire_facts .toggleNetwork s hf
    refine ⟨h.1.trans hhp, ?_, h.2.1.trans (count_handle_toggleNetwork s)⟩
    rw [h.2.2.1]
    exact hht

/-- Iterated form of `c10_step` over any remainder of the session made of
ticks and network toggles. -/
lemma c10_inv (evs : List Event) : ∀ s : State,
    (∀ e ∈ evs, e = .tick ∨ e = .toggleNetwork) →
    s.phase = .MONITORING → ANOMALY_TICK_INDEX < s.tickIndex →
    (runEvents evs s).phase = .MONITORING
    ∧ ANOMALY_TICK_INDEX < (runEvents evs s).tickIndex
    ∧ anomalyFireCount (runEvents evs s) = anomalyFireCount s := by
  induction evs with
  | nil => exact fun s _ hp ht => ⟨hp, ht, rfl⟩
  | cons e t ih =>
      intro s hall hp ht
      have hstep := c10_step e (hall e (List.mem_cons_self e t)) s hp ht
      have hrec := ih (applyEvent e s) (fun x hx => hall x (List.mem_cons_of_mem e hx))
        hstep.1 hstep.2.1
      refine ⟨?_, ?_, ?_⟩
      · show (runEvents t (applyEvent e s)).phase = .MONITORING
        exact hrec.1
      · show ANOMALY_TICK_INDEX < (runEvents t (applyEvent e s)).tickIndex
        exact hrec.2.1
      · show anomalyFireCount (runEvents t (applyEvent e s)) = anomalyFireCount s
        exact hrec.2.2.trans hstep.2.2

/-- C10, counterexample.  With the network disabled across the threshold tick
(tick counter at 3, zero firings, still MONITORING), re-enabling the network
makes the metric effect re-run with `tickIndex` still equal to 3 — and the
anomaly DOES fire, contradicting the claim that it can never fire again after
re-enabling. -/
theorem c10_counterexample :
    (runEvents (guidedEvents ++ [.toggleNetwork] ++ List.replicate 3 .tick)
      (initState rzero 0)).networkEnabled = false
    ∧ (runEvents (guidedEvents ++ [.toggleNetwork] ++ List.replicate 3 .tick)
      (initState rzero 0)).tickIndex = 3
    ∧ (runEvents (guidedEvents ++ [.toggleNetwork] ++ List.replicate 3 .tick)
      (initState rzero 0)).phase = .MONITORING
    ∧ anomalyFireCount (runEvents (guidedEvents ++ [.toggleNetwork]
      ++ List.replicate 3 .tick) (initState rzero 0)) = 0
    ∧ (applyEvent .toggleNetwork (runEvents (guidedEvents ++ [.toggleNetwork]
      ++ List.replicate 3 .tick) (initState rzero 0))).networkEnabled = true
    ∧ anomalyFireCount (applyEvent .toggleNetwork (runEvents
      (guidedEvents ++ [.toggleNetwork] ++ List.replicate 3 .tick)
      (initState rzero 0))) = 1
    ∧ (applyEvent .toggleNetwork (runEvents (guidedEvents ++ [.toggleNetwork]
      ++ List.replicate 3 .tick) (initState rzero 0))).phase
        = .ANOMALY_DETECTED := by
  exact ⟨by decide, by decide, by decide, by decide, by decide, by decide, by decide⟩

/-- C10, amended: once the tick counter is strictly past the threshold with
the phase still MONITORING, the anomaly can never fire again for the remainder
of the session — under any further interleaving of interval ticks and network
toggles (in particular after the network is re-enabled), the phase stays
MONITORING, the counter stays past the threshold, and the anomaly count does
not change.  (Re-enabling the network while the counter still equals the
threshold does fire the anomaly, see the counterexample.) -/
theorem c10_amended (s : State) (hp : s.phase = .MONITORING)
    (ht : ANOMALY_TICK_INDEX < s.tickIndex)
    (evs : List Event) (hall : ∀ e ∈ evs, e = .tick ∨ e = .toggleNetwork) :
    (runEvents evs s).phase = .MONITORING
    ∧ ANOMALY_TICK_INDEX < (runEvents evs s).tickIndex
    ∧ anomalyFireCount (runEvents evs s) = anomalyFireCount s :=
  c10_inv evs s hall hp ht

set_option maxHeartbeats 4000000 in
/-- C10, witness: the amended theorem applied after the guided sequence, a
network interruption and four suppressed ticks (counter at 4, past the
threshold), with the remainder re-enabling the network and ticking twice. -/
theorem c10_amended_witness :
    (runEvents [.toggleNetwork, .tick, .tick]
      (runEvents (guidedEvents ++ [.toggleNetwork] ++ List.replicate 4 .tick)
        (initState rzero 0))).phase = .MONITORING
    ∧ ANOMALY_TICK_INDEX < (runEvents [.toggleNetwork, .tick, .tick]
      (runEvents (guidedEvents ++ [.toggleNetwork] ++ List.replicate 4 .tick)
        (initState rzero 0))).tickIndex
    ∧ anomalyFireCount (runEvents [.toggleNetwork, .tick, .tick]
      (runEvents (guidedEvents ++ [.toggleNetwork] ++ List.replicate 4 .tick)
        (initState rzero 0)))
      = anomalyFireCount (runEvents (guidedEvents ++ [.toggleNetwork]
        ++ List.replicate 4 .tick) (initState rzero 0)) := by
  have h := c10_amended
    (runEvents (guidedEvents ++ [.toggleNetwork] ++ List.replicate 4 .tick)
      (initState rzero 0))
    (by decide) (by decide) [.toggleNetwork, .tick, .tick] (by decide)
  exact h

/-! ### Claim C8 -/

lemma pushMetric_length_of_lt (l : List MetricPoint) (p : MetricPoint)
    (h : l.length < 30) : (pushMetric l p).length = l.length + 1 := by
  unfold pushMetric
  rw [if_neg (by rw [List.length_append]; simp; omega)]
  simp [List.length_append]

lemma appendSample_metrics (s : State) :
    (appendSample s).metrics = pushMetric s.metrics (samplePoint s) := rfl

lemma fireAnomaly_metrics (s1 : State) : (fireAnomaly s1).metrics = s1.metrics := rfl

lemma appendSample_metrics_length (s : State) (h : s.metrics.length < 30) :
    (appendSample s).metrics.length = s.metrics.length + 1 := by
  show (pushMetric s.metrics (samplePoint s)).length = s.metrics.length + 1
  exact pushMetric_length_of_lt _ _ h

/-- Unless the metric pass just fired the anomaly, the rest of the render loop
leaves the history as the metric pass left it. -/
lemma stabilize_metrics (u : State)
    (hnAD : (metricCheck u).phase ≠ .ANOMALY_DETECTED) :
    (stabilize u).metrics = (metricCheck u).metrics := by
  have hmm : (metricCheck u).lastMetricDeps = metricDeps (metricCheck u) := by
    rcases metricCheck_metric_consistent u with h | h
    · exact h
    · exact absurd h.1 hnAD
  have h2 : (timeoutCheck (metricCheck u)).lastMetricDeps
      = metricDeps (timeoutCheck (metricCheck u)) := by
    rw [timeoutCheck_lastMetricDeps, timeoutCheck_metricDeps]
    exact hmm
  unfold stabilize runEffectsOnce
  rw [timeoutCheck_metrics, metricCheck_id _ h2, timeoutCheck_metrics]

/-- Starting the canary from CANARY_SETUP seeds the 10-sample warm-up and the
entry into MONITORING immediately re-runs the metric effect (its `phase` and
`tickIndex` dependencies changed), appending an 11th sample in the same
commit. -/
lemma applyEvent_startCanary_len (s : State) (hc : depsConsistent s)
    (hp : s.phase = .CANARY_SETUP) (hn : s.networkEnabled = true) :
    (applyEvent .startCanary s).metrics.length = 11 := by
  have hl : (handle .startCanary s).lastMetricDeps = s.lastMetricDeps := rfl
  have hcond : metricDeps (handle .startCanary s)
      ≠ (handle .startCanary s).lastMetricDeps := by
    intro he
    have h2 : (handle .startCanary s).phase = s.phase := by
      have h3 := congrArg (fun q : MetricDeps => q.2.1) (he.trans (hl.trans hc.1))
      exact h3
    rw [handle_startCanary_phase, hp] at h2
    exact absurd h2 (by decide)
  have hmphase : (metricCheck (handle .startCanary s)).phase = .MONITORING := by
    have hf : ¬((handle .startCanary s).tickIndex = ANOMALY_TICK_INDEX ∧
        (handle .startCanary s).phase = .MONITORING) := by
      rintro ⟨hx, -⟩
      rw [handle_startCanary_tickIndex] at hx
      exact absurd hx (by decide)
    exact (metricCheck_not_fire_facts _ hf).1.trans (handle_startCanary_phase s)
  have h10 : ({ handle .startCanary s with
      lastMetricDeps := metricDeps (handle .startCanary s) } : State).metrics.length
      = 10 := warmupPoints_length _ _ _
  have hlen : (metricCheck (handle .startCanary s)).metrics.length = 11 := by
    rw [metricCheck_run _ hcond]
    rw [mBody_run { handle .startCanary s with
        lastMetricDeps := metricDeps (handle .startCanary s) }
      (Or.inl (by exact handle_startCanary_phase s))
      (by exact (handle_startCanary_networkEnabled s).trans hn)]
    rw [if_neg (by
      rintro ⟨hx, -⟩
      have hx0 : (handle .startCanary s).tickIndex = ANOMALY_TICK_INDEX := hx
      rw [handle_startCanary_tickIndex] at hx0
      exact absurd hx0 (by decide))]
    rw [appendSample_metrics_length { handle .startCanary s with
        lastMetricDeps := metricDeps (handle .startCanary s) }
      (by rw [h10]; decide), h10]
  have hst := stabilize_metrics (handle .startCanary s) (by rw [hmphase]; decide)
  show (stabilize (handle .startCanary s)).metrics.length = 11
  rw [hst]
  exact hlen

/-- After the guided sequence the history holds 11 samples: the 10-sample
warm-up plus one appended by the effect on entering MONITORING. -/
lemma guided_metrics_len (rand : Nat → Rat) (t0 : Int) :
    (runEvents guidedEvents (initState rand t0)).metrics.length = 11 := by
  have hrw : runEvents guidedEvents (initState rand t0)
      = applyEvent .startCanary (applyEvent .continueToSetup
          (applyEvent .shadowComplete (applyEvent .startGuided (initState rand t0)))) := by
    unfold runEvents guidedEvents
    rw [List.foldl_cons, List.foldl_cons, List.foldl_cons, List.foldl_cons,
      List.foldl_nil]
  have s1 := applyEvent_not_fire_facts .startGuided (initState rand t0)
    (not_fire_of_phase (handle_startGuided_phase _) (by decide))
  have s1p : (applyEvent .startGuided (initState rand t0)).phase = .SHADOW_TEST :=
    s1.1.trans (handle_startGuided_phase _)
  have s1n : (applyEvent .startGuided (initState rand t0)).networkEnabled = true :=
    s1.2.2.2.1.trans ((handle_startGuided_networkEnabled _).trans rfl)
  have s2p0 : (handle .shadowComplete
      (applyEvent .startGuided (initState rand t0))).phase = .SHADOW_TEST :=
    (handle_shadowComplete_phase _).trans s1p
  have s2 := applyEvent_not_fire_facts .shadowComplete
    (applyEvent .startGuided (initState rand t0))
    (not_fire_of_phase s2p0 (by decide))
  have s2n : (applyEvent .shadowComplete
      (applyEvent .startGuided (initState rand t0))).networkEnabled = true :=
    s2.2.2.2.1.trans ((handle_shadowComplete_networkEnabled _).trans s1n)
  have s3 := applyEvent_not_fire_facts .continueToSetup
    (applyEvent .shadowComplete (applyEvent .startGuided (initState rand t0)))
    (not_fire_of_phase (handle_continueToSetup_phase _) (by decide))
  have s3p : (applyEvent .continueToSetup (applyEvent .shadowComplete
      (applyEvent .startGuided (initState rand t0)))).phase = .CANARY_SETUP :=
    s3.1.trans (handle_continueToSetup_phase _)
  have s3n : (applyEvent .continueToSetup (applyEvent .shadowComplete
      (applyEvent .startGuided (initState rand t0)))).networkEnabled = true :=
    s3.2.2.2.1.trans ((handle_continueToSetup_networkEnabled _).trans s2n)
  rw [hrw]
  exact applyEvent_startCanary_len _ (applyEvent_consistent _ _) s3p s3n

/-- A live non-threshold tick appends exactly one sample. -/
lemma applyEvent_tick_nofire_len (s : State) (hc : depsConsistent s)
    (hr : s.simRunning = true) (hn : s.networkEnabled = true)
    (hp : s.phase = .MONITORING ∨ s.phase = .ANOMALY_DETECTED)
    (hf : ¬(s.tickIndex + 1 = ANOMALY_TICK_INDEX ∧ s.phase = .MONITORING))
    (hlen : s.metrics.length < 30) :
    (applyEvent .tick s).metrics.length = s.metrics.length + 1 := by
  rw [applyEvent_tick_nofire s hc hr hn hp hf]
  rw [appendSample_metrics_length
    { s with tickIndex := s.tickIndex + 1, now := s.now + TICK_INTERVAL_MS
           , lastMetricDeps := (s.tickIndex + 1, s.phase, s.networkEnabled) }
    (by exact hlen)]

/-- The threshold tick appends two samples in one commit: one before the
anomaly fires and — because the phase change re-runs the effect — one after. -/
lemma applyEvent_tick_fire_len (s : State) (hc : depsConsistent s)
    (hr : s.simRunning = true) (hn : s.networkEnabled = true)
    (hM : s.phase = .MONITORING) (h3 : s.tickIndex + 1 = ANOMALY_TICK_INDEX)
    (hlen : s.metrics.length + 1 < 30) :
    (applyEvent .tick s).metrics.length = s.metrics.length + 2 := by
  rw [applyEvent_tick_fire s hc hr hn hM h3]
  have hi : (appendSample
      { s with tickIndex := s.tickIndex + 1, now := s.now + TICK_INTERVAL_MS
             , lastMetricDeps := (s.tickIndex + 1, s.phase, s.networkEnabled) }).metrics.length
      = s.metrics.length + 1 := by
    rw [appendSample_metrics_length
      { s with tickIndex := s.tickIndex + 1, now := s.now + TICK_INTERVAL_MS
             , lastMetricDeps := (s.tickIndex + 1, s.phase, s.networkEnabled) }
      (by exact (by omega : s.metrics.length < 30))]
  have ho : ({ fireAnomaly (appendSample
      { s with tickIndex := s.tickIndex + 1, now := s.now + TICK_INTERVAL_MS
             , lastMetricDeps := (s.tickIndex + 1, s.phase, s.networkEnabled) }) with
        lastTimeoutPhase := AppPhase.ANOMALY_DETECTED
      , decisionTimer := some 60000
      , lastMetricDeps :=
          (s.tickIndex + 1, AppPhase.ANOMALY_DETECTED, s.networkEnabled) } : State).metrics.length
      = s.metrics.length + 1 := hi
  rw [appendSample_metrics_length
    { fireAnomaly (appendSample
      { s with tickIndex := s.tickIndex + 1, now := s.now + TICK_INTERVAL_MS
             , lastMetricDeps := (s.tickIndex + 1, s.phase, s.networkEnabled) }) with
        lastTimeoutPhase := AppPhase.ANOMALY_DETECTED
      , decisionTimer := some 60000
      , lastMetricDeps :=
          (s.tickIndex + 1, AppPhase.ANOMALY_DETECTED, s.networkEnabled) }
    (by rw [ho]; omega), ho]

/-- Sample-history lengths along the canonical session: 11 after the guided
start, one more per quiet tick, two more at the threshold tick. -/
lemma session_len (rand : Nat → Rat) (t0 : Int) :
    (sessionAfter rand t0 4).metrics.length = 16
    ∧ (sessionAfter rand t0 3).metrics.length = 15
    ∧ (sessionAfter rand t0 2).metrics.length = 13
    ∧ (sessionAfter rand t0 1).metrics.length = 12
    ∧ (sessionAfter rand t0 0).metrics.length = 11 := by
  have h0 : (sessionAfter rand t0 0).metrics.length = 11 := by
    have hz : sessionAfter rand t0 0 = runEvents guidedEvents (initState rand t0) := by
      unfold sessionAfter
      rw [show List.replicate 0 (Event.tick) = ([] : List Event) from rfl,
        List.append_nil]
    rw [hz]
    exact guided_metrics_len rand t0
  have h1 : (sessionAfter rand t0 1).metrics.length = 12 := by
    obtain ⟨iht, ihn, ihs, ihc, ihp, -⟩ := session_inv rand t0 0
    rw [show (1 : Nat) = 0 + 1 from rfl, sessionAfter_succ]
    generalize hS : sessionAfter rand t0 0 = S at iht ihn ihs ihc ihp h0 ⊢
    have hphase : S.phase = .MONITORING := by rw [ihp, if_neg (by decide)]
    have hf : ¬(S.tickIndex + 1 = ANOMALY_TICK_INDEX ∧ S.phase = .MONITORING) := by
      rintro ⟨hx, -⟩
      rw [iht] at hx
      exact absurd hx (by decide)
    rw [applyEvent_tick_nofire_len S ihc ihs ihn (Or.inl hphase) hf
      (by rw [h0]; decide), h0]
  have h2 : (sessionAfter rand t0 2).metrics.length = 13 := by
    obtain ⟨iht, ihn, ihs, ihc, ihp, -⟩ := session_inv rand t0 1
    rw [show (2 : Nat) = 1 + 1 from rfl, sessionAfter_succ]
    generalize hS : sessionAfter rand t0 1 = S at iht ihn ihs ihc ihp h1 ⊢
    have hphase : S.phase = .MONITORING := by rw [ihp, if_neg (by decide)]
    have hf : ¬(S.tickIndex + 1 = ANOMALY_TICK_INDEX ∧ S.phase = .MONITORING) := by
      rintro ⟨hx, -⟩
      rw [iht] at hx
      exact absurd hx (by decide)
    rw [applyEvent_tick_nofire_len S ihc ihs ihn (Or.inl hphase) hf
      (by rw [h1]; decide), h1]
  have h3 : (sessionAfter rand t0 3).metrics.length = 15 := by
    obtain ⟨iht, ihn, ihs, ihc, ihp, -⟩ := session_inv rand t0 2
    rw [show (3 : Nat) = 2 + 1 from rfl, sessionAfter_succ]
    generalize hS : sessionAfter rand t0 2 = S at iht ihn ihs ihc ihp h2 ⊢
    have hphase : S.phase = .MONITORING := by rw [ihp, if_neg (by decide)]
    rw [applyEvent_tick_fire_len S ihc ihs ihn hphase (by rw [iht]; decide)
      (by rw [h2]; decide), h2]
  have h4 : (sessionAfter rand t0 4).metrics.length = 16 := by
    obtain ⟨iht, ihn, ihs, ihc, ihp, -⟩ := session_inv rand t0 3
    rw [show (4 : Nat) = 3 + 1 from rfl, sessionAfter_succ]
    generalize hS : sessionAfter rand t0 3 = S at iht ihn ihs ihc ihp h3 ⊢
    have hphase : S.phase = .ANOMALY_DETECTED := by rw [ihp, if_pos (by decide)]
    have hf : ¬(S.tickIndex + 1 = ANOMALY_TICK_INDEX ∧ S.phase = .MONITORING) := by
      rintro ⟨-, hx⟩
      rw [hphase] at hx
      exact absurd hx (by decide)
    rw [applyEvent_tick_nofire_len S ihc ihs ihn (Or.inr hphase) hf
      (by rw [h3]; decide), h3]
  exact ⟨h4, h3, h2, h1, h0⟩

/-- C8, counterexample.  In the guided scenario with 4 simulated ticks the
anomaly has indeed fired on tick 3 and the phase is ANOMALY_DETECTED, but the
metric history has length 16, not the claimed 14: an extra sample is appended
on entering MONITORING (the effect runs on the phase/tick dependency change)
and the threshold tick appends two samples (the anomaly's phase change re-runs
the effect within the same commit). -/
theorem c8_counterexample :
    (sessionAfter rzero 0 4).metrics.length = 16
    ∧ (sessionAfter rzero 0 4).metrics.length ≠ 14
    ∧ (sessionAfter rzero 0 4).phase = .ANOMALY_DETECTED
    ∧ anomalyFireCount (sessionAfter rzero 0 4) = 1 := by
  exact ⟨by decide, by decide, by decide, by decide⟩

/-- C8, amended: in the guided scenario (startCanary then 4 ticks), the
anomaly fires exactly at tick 3 (count 0 after 2 ticks, 1 from 3 ticks on),
the phase is ANOMALY_DETECTED from tick 3 on — but the history length after 4
ticks is 16 (10 warm-up + 1 on entering MONITORING + 1 each for ticks 1 and 2
+ 2 at the firing tick 3 + 1 at tick 4), for every random oracle and start
time. -/
theorem c8_amended (rand : Nat → Rat) (t0 : Int) :
    (sessionAfter rand t0 4).metrics.length = 16
    ∧ (sessionAfter rand t0 4).metrics.length ≠ 14
    ∧ (sessionAfter rand t0 4).phase = .ANOMALY_DETECTED
    ∧ anomalyFireCount (sessionAfter rand t0 4) = 1
    ∧ anomalyFireCount (sessionAfter rand t0 2) = 0
    ∧ (sessionAfter rand t0 3).phase = .ANOMALY_DETECTED
    ∧ anomalyFireCount (sessionAfter rand t0 3) = 1
    ∧ (sessionAfter rand t0 0).metrics.length = 11 := by
  obtain ⟨l4, -, -, -, l0⟩ := session_len rand t0
  obtain ⟨-, -, -, -, p4, c4⟩ := session_inv rand t0 4
  obtain ⟨-, -, -, -, p3, c3⟩ := session_inv rand t0 3
  obtain ⟨-, -, -, -, -, c2⟩ := session_inv rand t0 2
  refine ⟨l4, by rw [l4]; decide, p4.trans (if_pos (by decide)),
    c4.trans (if_pos (by decide)), c2.trans (if_neg (by decide)),
    p3.trans (if_pos (by decide)), c3.trans (if_pos (by decide)), l0⟩

/-! ### Claim C4 -/

lemma pushMetric_length_le (l : List MetricPoint) (p : MetricPoint)
    (h : l.length ≤ 30) : (pushMetric l p).length ≤ 30 := by
  unfold pushMetric
  by_cases hx : (l ++ [p]).length > 30
  · rw [if_pos hx, List.length_tail, List.length_append]
    simp
    omega
  · rw [if_neg hx]
    rw [List.length_append] at hx ⊢
    simp at hx ⊢
    omega

lemma mBody_metrics_le (s : State) (h : s.metrics.length ≤ 30) :
    (metricEffectBody s).metrics.length ≤ 30 := by
  unfold metricEffectBody
  split
  · exact h
  · split
    · rw [fireAnomaly_metrics, appendSample_metrics]
      exact pushMetric_length_le _ _ h
    · rw [appendSample_metrics]
      exact pushMetric_length_le _ _ h

lemma metricCheck_metrics_le (s : State) (h : s.metrics.length ≤ 30) :
    (metricCheck s).metrics.length ≤ 30 := by
  unfold metricCheck
  split
  · exact mBody_metrics_le { s with lastMetricDeps := metricDeps s } (by exact h)
  · exact h

lemma stabilize_metrics_le (u : State) (h : u.metrics.length ≤ 30) :
    (stabilize u).metrics.length ≤ 30 := by
  unfold stabilize runEffectsOnce
  rw [timeoutCheck_metrics]
  refine metricCheck_metrics_le _ ?_
  rw [timeoutCheck_metrics]
  exact metricCheck_metrics_le _ h

/-- Every handler leaves the history within the 30-sample capacity: most do
not touch it, `startCanary` and `replay` reseed it with the 10-sample
warm-up. -/
lemma handle_metrics_le (e : Event) (s : State) (h : s.metrics.length ≤ 30) :
    (handle e s).metrics.length ≤ 30 := by
  cases e
  case startCanary =>
    show (handleStartCanary s).metrics.length ≤ 30
    have h10 : (handleStartCanary s).metrics.length = 10 := warmupPoints_length _ _ _
    rw [h10]
    decide
  case replay =>
    show (replayTimeline s).metrics.length ≤ 30
    have h10 : (replayTimeline s).metrics.length = 10 := warmupPoints_length _ _ _
    rw [h10]
    decide
  case shadowComplete =>
    show (fireShadowComplete s).metrics.length ≤ 30
    unfold fireShadowComplete
    split
    · exact h
    · exact h
  case toggleNetwork =>
    show (toggleNetwork s).metrics.length ≤ 30
    unfold toggleNetwork
    split
    · exact h
    · exact h
  case tick =>
    show (if s.simRunning then
        ({ s with tickIndex := s.tickIndex + 1, now := s.now + TICK_INTERVAL_MS } : State)
      else s).metrics.length ≤ 30
    split
    · exact h
    · exact h
  case decisionTimeoutFire =>
    show (if s.decisionTimer.isSome then
        ({ s with recommendationTimeout := true, decisionTimer := none } : State)
      else s).metrics.length ≤ 30
    split
    · exact h
    · exact h
  all_goals exact h

lemma applyEvent_metrics_le (e : Event) (s : State) (h : s.metrics.length ≤ 30) :
    (applyEvent e s).metrics.length ≤ 30 :=
  stabilize_metrics_le _ (handle_metrics_le e s h)

lemma runEvents_metrics_le (evs : List Event) : ∀ s : State,
    s.metrics.length ≤ 30 → (runEvents evs s).metrics.length ≤ 30 := by
  induction evs with
  | nil => exact fun s h => h
  | cons e t ih =>
      intro s h
      show (runEvents t (applyEvent e s)).metrics.length ≤ 30
      exact ih (applyEvent e s) (applyEvent_metrics_le e s h)

/-- C4: at every state reachable from the initial state by any event sequence
the metric history has length at most 30, and the `setMetrics` update is
exactly FIFO: below capacity the fresh sample is appended at the end; at
capacity exactly the oldest (head) element is evicted, the fresh sample is
appended as the new last element, the length stays 30, and the remaining
samples keep their insertion order; an evicted head that occurs nowhere else
is genuinely absent afterwards. -/
theorem c4_history_fifo :
    (∀ (evs : List Event) (rand : Nat → Rat) (t0 : Int),
        (runEvents evs (initState rand t0)).metrics.length ≤ 30)
    ∧ (∀ (l : List MetricPoint) (p : MetricPoint),
        l.length < 30 → pushMetric l p = l ++ [p])
    ∧ (∀ (l : List MetricPoint) (p : MetricPoint),
        l.length = 30 → pushMetric l p = l.tail ++ [p]
          ∧ (pushMetric l p).length = 30
          ∧ (pushMetric l p).getLast? = some p)
    ∧ (∀ (x p : MetricPoint) (rest : List MetricPoint),
        (x :: rest).length = 30 → x ∉ rest → x ≠ p →
        x ∉ pushMetric (x :: rest) p) := by
  refine ⟨?_, ?_, ?_, ?_⟩
  · intro evs rand t0
    exact runEvents_metrics_le evs (initState rand t0) (Nat.zero_le 30)
  · intro l p hl
    unfold pushMetric
    rw [if_neg (by rw [List.length_append]; simp; omega)]
  · intro l p hl
    cases l with
    | nil => exact absurd hl (by decide)
    | cons x xs =>
        have hpush : pushMetric (x :: xs) p = xs ++ [p] := by
          unfold pushMetric
          rw [if_pos (by rw [List.length_append]; simp at hl ⊢; omega)]
          rfl
        refine ⟨hpush, ?_, ?_⟩
        · rw [hpush, List.length_append]
          simp at hl ⊢
          omega
        · rw [hpush]
          simp
  · intro x p rest hlen hmem hne
    have hpush : pushMetric (x :: rest) p = rest ++ [p] := by
      unfold pushMetric
      rw [if_pos (by rw [List.length_append]; simp at hlen ⊢; omega)]
      rfl
    rw [hpush]
    intro hx
    rcases List.mem_append.mp hx with h1 | h1
    · exact hmem h1
    · simp at h1
      exact hne h1

/-- C4, witness: the capacity bound on a concrete trace and the FIFO laws at
concrete histories (an empty one, and a full one of 30 distinct samples). -/
theorem c4_history_fifo_witness :
    (runEvents (guidedEvents ++ List.replicate 4 .tick)
      (initState rzero 0)).metrics.length ≤ 30
    ∧ pushMetric []
        ({ timestamp := 0, latency := 0, error_rate := 0, drift_user_region := 0 }
          : MetricPoint)
      = [{ timestamp := 0, latency := 0, error_rate := 0, drift_user_region := 0 }]
    ∧ pushMetric
        (({ timestamp := 99, latency := 0, error_rate := 0, drift_user_region := 0 }
            : MetricPoint) ::
          (List.range 29).map (fun i =>
            ({ timestamp := (i : Int), latency := 0, error_rate := 0
             , drift_user_region := 0 } : MetricPoint)))
        ({ timestamp := 1000, latency := 0, error_rate := 0, drift_user_region := 0 }
          : MetricPoint)
      = ((List.range 29).map (fun i =>
            ({ timestamp := (i : Int), latency := 0, error_rate := 0
             , drift_user_region := 0 } : MetricPoint)))
        ++ [{ timestamp := 1000, latency := 0, error_rate := 0
            , drift_user_region := 0 }]
    ∧ ({ timestamp := 99, latency := 0, error_rate := 0, drift_user_region := 0 }
        : MetricPoint) ∉
        pushMetric
          (({ timestamp := 99, latency := 0, error_rate := 0, drift_user_region := 0 }
              : MetricPoint) ::
            (List.range 29).map (fun i =>
              ({ timestamp := (i : Int), latency := 0, error_rate := 0
               , drift_user_region := 0 } : MetricPoint)))
          ({ timestamp := 1000, latency := 0, error_rate := 0
           , drift_user_region := 0 } : MetricPoint) := by
  have h := c4_history_fifo
  refine ⟨h.1 (guidedEvents ++ List.replicate 4 .tick) rzero 0,
    h.2.1 [] _ (by decide),
    ?_, ?_⟩
  · have h3 := (h.2.2.1
      (({ timestamp := 99, latency := 0, error_rate := 0, drift_user_region := 0 }
          : MetricPoint) ::
        (List.range 29).map (fun i =>
          ({ timestamp := (i : Int), latency := 0, error_rate := 0
           , drift_user_region := 0 } : MetricPoint)))
      ({ timestamp := 1000, latency := 0, error_rate := 0, drift_user_region := 0 }
        : MetricPoint) (by decide)).1
    exact h3
  · exact h.2.2.2 _ _ _ (by decide) (by decide) (by decide)

end MRO
